import Mathlib

/-!
Shallow embedding of the fetch-and-cache coordinator of the nextcloud_exporter
repository (collector.go, metrics.go, types.go, main.go), together with
theorems settling the behavioural claims about it.

Modelling conventions:
- Go `time.Time` / `time.Duration` values are integers (nanoseconds); the
  current instant of a scrape is an explicit `now : Int` parameter, and
  `time.Since(t)` is `now - t`.
- The network fetches `fetchStatus` / `fetchData` are the only effectful
  leaves; their outcomes are passed in as `Except FetchError _` oracles.
- `float64` metric values are modelled as `Rat`; integer payload fields are
  `Int` as in the Go structs.
- Sending a metric on the prometheus channel is modelled by appending a
  `Metric` record to an output list, in the source's emission order.
-/

namespace NextcloudExporter

/-- Classification of a failed upstream fetch attempt, following the error
returns of `fetchStatus` / `fetchData` in collector.go. -/
inductive FetchError where
  | creatingRequest
  | executingRequest
  | rateLimited
  | unexpectedStatus (code : Int)
  | readingBody
  | parsingJSON
  deriving DecidableEq, Repr

/-- StatusResponse: the decoded reply of `GET {baseURL}/status.php`
(types.go). -/
structure StatusResponse where
  installed : Bool
  maintenance : Bool
  needsDbUpgrade : Bool
  version : String
  versionString : String
  edition : String
  productName : String
  extendedSupport : Bool
  deriving DecidableEq, Repr

/-- Apps sub-struct of SystemData (types.go). -/
structure AppsData where
  numInstalled : Int
  numUpdatesAvailable : Int
  deriving DecidableEq, Repr

/-- Update sub-struct of SystemData (types.go). -/
structure UpdateData where
  available : Bool
  availableVersion : String
  deriving DecidableEq, Repr

/-- SystemData (types.go). -/
structure SystemData where
  version : String
  freeSpace : Int
  cpuLoad : List Rat
  cpuNum : Int
  memTotal : Int
  memFree : Int
  swapTotal : Int
  swapFree : Int
  apps : AppsData
  update : UpdateData
  deriving DecidableEq, Repr

/-- StorageData (types.go). -/
structure StorageData where
  numUsers : Int
  numFiles : Int
  numStorages : Int
  numStoragesLocal : Int
  numStoragesHome : Int
  numStoragesOther : Int
  deriving DecidableEq, Repr

/-- SharesData (types.go). -/
structure SharesData where
  numShares : Int
  numSharesUser : Int
  numSharesGroups : Int
  numSharesLink : Int
  numSharesMail : Int
  numSharesRoom : Int
  numSharesLinkNoPassword : Int
  numFedSharesSent : Int
  numFedSharesReceived : Int
  deriving DecidableEq, Repr

/-- Memory-usage sub-struct of the PHP OPcache data (types.go). -/
structure MemoryUsageData where
  usedMemory : Int
  freeMemory : Int
  wastedMemory : Int
  deriving DecidableEq, Repr

/-- OPcache-statistics sub-struct of the PHP OPcache data (types.go). -/
structure OPcacheStatisticsData where
  hits : Int
  misses : Int
  opcacheHitRate : Rat
  deriving DecidableEq, Repr

/-- OPcache sub-struct of the PHP data (types.go). -/
structure OPcacheData where
  opcacheEnabled : Bool
  memoryUsage : MemoryUsageData
  opcacheStatistics : OPcacheStatisticsData
  deriving DecidableEq, Repr

/-- PHP sub-struct of ServerData (types.go). -/
structure PHPData where
  version : String
  memoryLimit : Int
  maxExecutionTime : Int
  uploadMaxFilesize : Int
  opcache : OPcacheData
  deriving DecidableEq, Repr

/-- Database sub-struct of ServerData (types.go); `Type` is renamed
`dbType` because `type` is reserved in Lean. -/
structure DatabaseData where
  dbType : String
  version : String
  size : String
  deriving DecidableEq, Repr

/-- ServerData (types.go). -/
structure ServerData where
  webserver : String
  php : PHPData
  database : DatabaseData
  deriving DecidableEq, Repr

/-- ActiveUsersData (types.go). -/
structure ActiveUsersData where
  last5Minutes : Int
  last1Hour : Int
  last24Hours : Int
  last7Days : Int
  last1Month : Int
  last3Months : Int
  last6Months : Int
  lastYear : Int
  deriving DecidableEq, Repr

/-- NextcloudData (types.go). -/
structure NextcloudData where
  system : SystemData
  storage : StorageData
  shares : SharesData
  deriving DecidableEq, Repr

/-- Meta sub-struct of the OCS envelope (types.go). -/
structure OCSMeta where
  status : String
  statusCode : Int
  message : String
  deriving DecidableEq, Repr

/-- Data sub-struct of the OCS envelope (types.go). -/
structure OCSData where
  nextcloud : NextcloudData
  server : ServerData
  activeUsers : ActiveUsersData
  deriving DecidableEq, Repr

/-- Inner `ocs` object of OCSResponse (types.go). -/
structure OCSBody where
  meta : OCSMeta
  data : OCSData
  deriving DecidableEq, Repr

/-- OCSResponse: the decoded reply of the serverinfo endpoint (types.go). -/
structure OCSResponse where
  ocs : OCSBody
  deriving DecidableEq, Repr

/-- The configuration fields of Config (main.go) that the collector's cache
logic reads; durations are nanosecond counts as in Go. -/
structure Config where
  fetchInterval : Int
  deriving DecidableEq, Repr

/-- The mutable cache state of NextcloudCollector (collector.go lines 22-28):
one slot and one fetch timestamp per source, guarded by `cacheMu` in Go. -/
structure NextcloudCollector where
  cachedStatus : Option StatusResponse
  cachedData : Option OCSResponse
  lastFetchTime : Int
  lastStatusFetch : Int
  deriving DecidableEq, Repr

/-- Collector state produced by NewNextcloudCollector: both cache slots are
Go `nil` and both timestamps are the zero time. -/
def initialCollector : NextcloudCollector :=
  { cachedStatus := none, cachedData := none, lastFetchTime := 0, lastStatusFetch := 0 }

/-- Result of one cached-fetch call: the value or error returned to the
caller, the collector state afterwards, whether an upstream fetch was
attempted (`c.fetchStatus()` / `c.fetchData()` called), and whether the
"using cached data due to fetch error" warning was logged. -/
structure CachedFetchResult (α : Type) where
  result : Except FetchError α
  state : NextcloudCollector
  attempted : Bool
  warned : Bool
  deriving Repr

/-- The fetch path of fetchStatusCached (collector.go lines 162-182): the
code after the cache-hit gate. `fetched` is the outcome of the one
`c.fetchStatus()` network call. -/
def fetchStatusFetchPath (c : NextcloudCollector) (now : Int)
    (fetched : Except FetchError StatusResponse) : CachedFetchResult StatusResponse :=
  match fetched with
  | .error e =>
    match c.cachedStatus with
    | some cached => ⟨.ok cached, c, true, true⟩
    | none => ⟨.error e, c, true, false⟩
  | .ok status =>
    ⟨.ok status, { c with cachedStatus := some status, lastStatusFetch := now }, true, false⟩

/-- fetchStatusCached (collector.go lines 153-183): serve the cached status
if present and younger than the fetch interval, otherwise take the fetch
path. -/
def fetchStatusCached (cfg : Config) (c : NextcloudCollector) (now : Int)
    (fetched : Except FetchError StatusResponse) : CachedFetchResult StatusResponse :=
  match c.cachedStatus with
  | some status =>
    if now - c.lastStatusFetch < cfg.fetchInterval then ⟨.ok status, c, false, false⟩
    else fetchStatusFetchPath c now fetched
  | none => fetchStatusFetchPath c now fetched

/-- The fetch path of fetchDataCached (collector.go lines 195-215): the code
after the cache-hit gate. `fetched` is the outcome of the one
`c.fetchData()` network call. -/
def fetchDataFetchPath (c : NextcloudCollector) (now : Int)
    (fetched : Except FetchError OCSResponse) : CachedFetchResult OCSResponse :=
  match fetched with
  | .error e =>
    match c.cachedData with
    | some cached => ⟨.ok cached, c, true, true⟩
    | none => ⟨.error e, c, true, false⟩
  | .ok data =>
    ⟨.ok data, { c with cachedData := some data, lastFetchTime := now }, true, false⟩

/-- fetchDataCached (collector.go lines 186-216): serve the cached
serverinfo payload if present and younger than the fetch interval, otherwise
take the fetch path. -/
def fetchDataCached (cfg : Config) (c : NextcloudCollector) (now : Int)
    (fetched : Except FetchError OCSResponse) : CachedFetchResult OCSResponse :=
  match c.cachedData with
  | some data =>
    if now - c.lastFetchTime < cfg.fetchInterval then ⟨.ok data, c, false, false⟩
    else fetchDataFetchPath c now fetched
  | none => fetchDataFetchPath c now fetched

/-- One metric observation sent on the prometheus channel: the metric name
(from metrics.go), its label values in declaration order, and its value. -/
structure Metric where
  name : String
  labels : List String
  value : Rat
  deriving DecidableEq, Repr

/-- boolToFloat (collector.go lines 291-296). -/
def boolToFloat (b : Bool) : Rat :=
  if b then 1 else 0

/-- collectStatusMetrics (collector.go lines 68-75), as the list of metrics
sent, in order. -/
def collectStatusMetrics (status : StatusResponse) : List Metric :=
  [⟨"nextcloud_status_info",
      [status.version, status.versionString, status.productName, status.edition], 1⟩,
   ⟨"nextcloud_status_installed", [], boolToFloat status.installed⟩,
   ⟨"nextcloud_status_maintenance", [], boolToFloat status.maintenance⟩,
   ⟨"nextcloud_status_needs_db_upgrade", [], boolToFloat status.needsDbUpgrade⟩,
   ⟨"nextcloud_status_extended_support", [], boolToFloat status.extendedSupport⟩]

/-- Model of Go `strconv.ParseInt(s, 10, 64)` as used for the database size
(collector.go line 137): an optional sign followed by one or more decimal
digits, with the value required to fit in int64; anything else fails. -/
def parseInt64 (s : String) : Option Int :=
  let stripped : Bool × List Char :=
    match s.data with
    | '-' :: rest => (true, rest)
    | '+' :: rest => (false, rest)
    | cs => (false, cs)
  let neg := stripped.1
  let digits := stripped.2
  if digits.isEmpty then none
  else if digits.all Char.isDigit then
    let n : Nat := digits.foldl (fun acc c => acc * 10 + (c.toNat - 48)) 0
    let v : Int := if neg then -(n : Int) else (n : Int)
    if -(2 ^ 63) ≤ v ∧ v ≤ 2 ^ 63 - 1 then some v else none
  else none

/-- collectAllMetrics (collector.go lines 77-150), as the list of metrics
sent, in order. The memory values arrive in KB and are converted to bytes;
the CPU-load block is guarded by `len >= 3`; the database size is emitted
only when its decimal string parses. -/
def collectAllMetrics (data : OCSResponse) : List Metric :=
  let nc := data.ocs.data.nextcloud
  let srv := data.ocs.data.server
  let users := data.ocs.data.activeUsers
  [⟨"nextcloud_system_info", [nc.system.version], 1⟩,
   ⟨"nextcloud_system_freespace_bytes", [], (nc.system.freeSpace : Rat)⟩]
  ++ (if 3 ≤ nc.system.cpuLoad.length then
        [⟨"nextcloud_system_cpuload", ["1m"], nc.system.cpuLoad.getD 0 0⟩,
         ⟨"nextcloud_system_cpuload", ["5m"], nc.system.cpuLoad.getD 1 0⟩,
         ⟨"nextcloud_system_cpuload", ["15m"], nc.system.cpuLoad.getD 2 0⟩]
      else [])
  ++ [⟨"nextcloud_system_cpu_count", [], (nc.system.cpuNum : Rat)⟩,
      ⟨"nextcloud_system_mem_total_bytes", [], (nc.system.memTotal : Rat) * 1024⟩,
      ⟨"nextcloud_system_mem_free_bytes", [], (nc.system.memFree : Rat) * 1024⟩,
      ⟨"nextcloud_system_swap_total_bytes", [], (nc.system.swapTotal : Rat) * 1024⟩,
      ⟨"nextcloud_system_swap_free_bytes", [], (nc.system.swapFree : Rat) * 1024⟩,
      ⟨"nextcloud_apps_installed_total", [], (nc.system.apps.numInstalled : Rat)⟩,
      ⟨"nextcloud_apps_updates_available_total", [], (nc.system.apps.numUpdatesAvailable : Rat)⟩,
      ⟨"nextcloud_update_available", [nc.system.update.availableVersion],
        if nc.system.update.available then 1 else 0⟩,
      ⟨"nextcloud_users_total", [], (nc.storage.numUsers : Rat)⟩,
      ⟨"nextcloud_files_total", [], (nc.storage.numFiles : Rat)⟩,
      ⟨"nextcloud_storages_total", [], (nc.storage.numStorages : Rat)⟩,
      ⟨"nextcloud_storages_local_total", [], (nc.storage.numStoragesLocal : Rat)⟩,
      ⟨"nextcloud_storages_home_total", [], (nc.storage.numStoragesHome : Rat)⟩,
      ⟨"nextcloud_storages_other_total", [], (nc.storage.numStoragesOther : Rat)⟩,
      ⟨"nextcloud_shares_total", [], (nc.shares.numShares : Rat)⟩,
      ⟨"nextcloud_shares_user_total", [], (nc.shares.numSharesUser : Rat)⟩,
      ⟨"nextcloud_shares_groups_total", [], (nc.shares.numSharesGroups : Rat)⟩,
      ⟨"nextcloud_shares_link_total", [], (nc.shares.numSharesLink : Rat)⟩,
      ⟨"nextcloud_shares_mail_total", [], (nc.shares.numSharesMail : Rat)⟩,
      ⟨"nextcloud_shares_room_total", [], (nc.shares.numSharesRoom : Rat)⟩,
      ⟨"nextcloud_shares_link_no_password_total", [], (nc.shares.numSharesLinkNoPassword : Rat)⟩,
      ⟨"nextcloud_shares_federated_sent_total", [], (nc.shares.numFedSharesSent : Rat)⟩,
      ⟨"nextcloud_shares_federated_received_total", [], (nc.shares.numFedSharesReceived : Rat)⟩,
      ⟨"nextcloud_php_memory_limit_bytes", [], (srv.php.memoryLimit : Rat)⟩,
      ⟨"nextcloud_php_upload_max_filesize_bytes", [], (srv.php.uploadMaxFilesize : Rat)⟩,
      ⟨"nextcloud_php_opcache_memory_used_bytes", [], (srv.php.opcache.memoryUsage.usedMemory : Rat)⟩,
      ⟨"nextcloud_php_opcache_memory_free_bytes", [], (srv.php.opcache.memoryUsage.freeMemory : Rat)⟩,
      ⟨"nextcloud_php_opcache_hit_rate", [], srv.php.opcache.opcacheStatistics.opcacheHitRate⟩]
  ++ (match parseInt64 srv.database.size with
      | some dbSize => [⟨"nextcloud_database_size_bytes", [], (dbSize : Rat)⟩]
      | none => [])
  ++ [⟨"nextcloud_active_users", ["5min"], (users.last5Minutes : Rat)⟩,
      ⟨"nextcloud_active_users", ["1hour"], (users.last1Hour : Rat)⟩,
      ⟨"nextcloud_active_users", ["24hours"], (users.last24Hours : Rat)⟩,
      ⟨"nextcloud_active_users", ["7days"], (users.last7Days : Rat)⟩,
      ⟨"nextcloud_active_users", ["1month"], (users.last1Month : Rat)⟩,
      ⟨"nextcloud_active_users", ["3months"], (users.last3Months : Rat)⟩,
      ⟨"nextcloud_active_users", ["6months"], (users.last6Months : Rat)⟩,
      ⟨"nextcloud_active_users", ["1year"], (users.lastYear : Rat)⟩]

/-- Result of one Collect call: the metrics sent on the channel, in order,
and the collector state afterwards. -/
structure CollectResult where
  metrics : List Metric
  state : NextcloudCollector
  deriving Repr

/-- Collect (collector.go lines 47-66): run the cached status fetch (on
error only log, on success emit status metrics), then the cached serverinfo
fetch (on error emit `nextcloud_scrape_success` 0 and return, on success
emit `nextcloud_scrape_success` 1 and all serverinfo metrics). The two
fetch oracles are the outcomes the network calls would have this scrape. -/
def Collect (cfg : Config) (c : NextcloudCollector) (now : Int)
    (statusFetched : Except FetchError StatusResponse)
    (dataFetched : Except FetchError OCSResponse) : CollectResult :=
  let rs := fetchStatusCached cfg c now statusFetched
  let statusMetrics : List Metric :=
    match rs.result with
    | .error _ => []
    | .ok status => collectStatusMetrics status
  let rd := fetchDataCached cfg rs.state now dataFetched
  match rd.result with
  | .error _ => ⟨statusMetrics ++ [⟨"nextcloud_scrape_success", [], 0⟩], rd.state⟩
  | .ok data =>
    ⟨statusMetrics ++ [⟨"nextcloud_scrape_success", [], 1⟩] ++ collectAllMetrics data, rd.state⟩

/-- The inputs one scrape depends on: the instant it runs and the outcomes
the two upstream fetches would have if attempted. -/
structure ScrapeInput where
  now : Int
  statusFetched : Except FetchError StatusResponse
  dataFetched : Except FetchError OCSResponse

/-- The collector state after one scrape. -/
def scrapeStep (cfg : Config) (c : NextcloudCollector) (i : ScrapeInput) : NextcloudCollector :=
  (Collect cfg c i.now i.statusFetched i.dataFetched).state

/-- The collector state after a sequence of scrapes. -/
def runScrapes (cfg : Config) (c : NextcloudCollector) : List ScrapeInput → NextcloudCollector
  | [] => c
  | i :: rest => runScrapes cfg (scrapeStep cfg c i) rest

/-- The values, in emission order, of all observations of the metric named
`n` in the output list `ms`. -/
def metricValues (ms : List Metric) (n : String) : List Rat :=
  (ms.filter (fun m => m.name == n)).map Metric.value

/-- The observations of the metric named `n` in the output list `ms`. -/
def metricsNamed (ms : List Metric) (n : String) : List Metric :=
  ms.filter (fun m => m.name == n)

/-- The metric names collectStatusMetrics can emit (the status source's
payload-derived metrics, from metrics.go). -/
def statusMetricNames : List String :=
  ["nextcloud_status_info", "nextcloud_status_installed", "nextcloud_status_maintenance",
   "nextcloud_status_needs_db_upgrade", "nextcloud_status_extended_support"]

/-- The metric names collectAllMetrics can emit (the info source's
payload-derived metrics, from metrics.go). -/
def serverinfoMetricNames : List String :=
  ["nextcloud_system_info", "nextcloud_system_freespace_bytes", "nextcloud_system_cpuload",
   "nextcloud_system_cpu_count", "nextcloud_system_mem_total_bytes",
   "nextcloud_system_mem_free_bytes", "nextcloud_system_swap_total_bytes",
   "nextcloud_system_swap_free_bytes", "nextcloud_apps_installed_total",
   "nextcloud_apps_updates_available_total", "nextcloud_update_available",
   "nextcloud_users_total", "nextcloud_files_total", "nextcloud_storages_total",
   "nextcloud_storages_local_total", "nextcloud_storages_home_total",
   "nextcloud_storages_other_total", "nextcloud_shares_total", "nextcloud_shares_user_total",
   "nextcloud_shares_groups_total", "nextcloud_shares_link_total", "nextcloud_shares_mail_total",
   "nextcloud_shares_room_total", "nextcloud_shares_link_no_password_total",
   "nextcloud_shares_federated_sent_total", "nextcloud_shares_federated_received_total",
   "nextcloud_php_memory_limit_bytes", "nextcloud_php_upload_max_filesize_bytes",
   "nextcloud_php_opcache_memory_used_bytes", "nextcloud_php_opcache_memory_free_bytes",
   "nextcloud_php_opcache_hit_rate", "nextcloud_database_size_bytes", "nextcloud_active_users"]

/-- Test whether a metric belongs to the info source's payload-derived
metrics. -/
def isServerinfoMetric (m : Metric) : Bool :=
  serverinfoMetricNames.contains m.name

/-- Test whether a metric belongs to the status source's payload-derived
metrics. -/
def isStatusMetric (m : Metric) : Bool :=
  statusMetricNames.contains m.name

/-- Whether an `Except` carries a success value. -/
def exceptOk {ε α : Type} : Except ε α → Bool
  | .ok _ => true
  | .error _ => false

/-- Concrete configuration used to evaluate the theorems on closed inputs:
a 30-unit fetch interval. -/
def sampleConfig : Config :=
  { fetchInterval := 30 }

/-- Concrete status payload used to evaluate the theorems. -/
def sampleStatus : StatusResponse :=
  { installed := true, maintenance := false, needsDbUpgrade := false,
    version := "29.0.2.2", versionString := "29.0.2", edition := "",
    productName := "Nextcloud", extendedSupport := false }

/-- Concrete serverinfo payload used to evaluate the theorems. -/
def sampleData : OCSResponse :=
  { ocs :=
    { meta := { status := "ok", statusCode := 200, message := "OK" },
      data :=
      { nextcloud :=
        { system :=
          { version := "29.0.2.2", freeSpace := 1000000, cpuLoad := [1/2, 1/4, 1/8],
            cpuNum := 4, memTotal := 8192, memFree := 4096, swapTotal := 2048,
            swapFree := 1024, apps := { numInstalled := 40, numUpdatesAvailable := 2 },
            update := { available := false, availableVersion := "" } },
          storage :=
          { numUsers := 3, numFiles := 1200, numStorages := 5, numStoragesLocal := 2,
            numStoragesHome := 3, numStoragesOther := 0 },
          shares :=
          { numShares := 7, numSharesUser := 2, numSharesGroups := 1, numSharesLink := 3,
            numSharesMail := 0, numSharesRoom := 0, numSharesLinkNoPassword := 1,
            numFedSharesSent := 0, numFedSharesReceived := 1 } },
        server :=
        { webserver := "nginx",
          php :=
          { version := "8.2.20", memoryLimit := 536870912, maxExecutionTime := 3600,
            uploadMaxFilesize := 536870912,
            opcache :=
            { opcacheEnabled := true,
              memoryUsage := { usedMemory := 50000000, freeMemory := 80000000,
                               wastedMemory := 0 },
              opcacheStatistics := { hits := 100000, misses := 500,
                                     opcacheHitRate := 995/10 } } },
          database := { dbType := "pgsql", version := "16.3", size := "52428800" } },
        activeUsers :=
        { last5Minutes := 1, last1Hour := 2, last24Hours := 3, last7Days := 4,
          last1Month := 5, last3Months := 6, last6Months := 7, lastYear := 8 } } } }

/-- Concrete collector state with both cache slots populated at time 0. -/
def sampleCollector : NextcloudCollector :=
  { cachedStatus := some sampleStatus, cachedData := some sampleData,
    lastFetchTime := 0, lastStatusFetch := 0 }

/-- Copy of a serverinfo payload with the CPU-load list replaced (used to
state that non-CPU-load metrics do not depend on the CPU-load list). -/
def setCpuLoad (d : OCSResponse) (l : List Rat) : OCSResponse :=
  { d with ocs.data.nextcloud.system.cpuLoad := l }

/-- Variant of `sampleCollector` whose status-source fields differ (empty
status slot, different status timestamp) while the data-source fields are
identical. -/
def sampleCollector2 : NextcloudCollector :=
  { sampleCollector with cachedStatus := none, lastStatusFetch := -50 }

/-!
Interleaving model of the `cacheMu`-guarded accesses to one source's cache
slot and fetch timestamp (collector.go). The slot value type is a parameter
`α` (`OCSResponse` for the data source, `StatusResponse` for the status
source). Each concurrent invocation of a cached-fetch operation contributes
its critical sections as threads:
- the cache-hit gate (lines 187-193 / 154-160) reads the slot and the
  timestamp under `RLock`;
- the stale-fallback read (lines 199-206 / 166-173) reads the slot under
  `RLock`;
- the store after a successful fetch (lines 210-213 / 177-180) writes the
  slot and then the timestamp under `Lock`.
Memory accesses themselves are NOT guarded by the semantics: any thread
whose next micro-operation is a read or write may perform it, whatever the
lock state, so mutual exclusion is a property of the programs the source
runs, not an assumption of the model. Lock acquisition follows Go's
`sync.RWMutex` safety semantics: `RLock` needs no writer holding the lock,
`Lock` needs no holder at all (scheduling fairness is irrelevant to the
torn-read claim and left unconstrained, which only enlarges the set of
executions).
-/

/-- One micro-operation on the shared cache fields or the `cacheMu` lock. -/
inductive MicroOp (α : Type) where
  | rlock
  | runlock
  | wlock
  | wunlock
  | readSlot
  | readStamp
  | writeSlot (v : Option α)
  | writeStamp (t : Int)
  deriving DecidableEq

/-- One thread: its remaining micro-operations, the values it has read so
far, and which mode of the lock it currently holds. -/
structure ThreadState (α : Type) where
  prog : List (MicroOp α)
  slotRead : Option (Option α)
  stampRead : Option Int
  holdsR : Bool
  holdsW : Bool

/-- The shared state: all threads, the source's cache slot and fetch
timestamp. -/
structure SysState (ι α : Type) where
  threads : ι → ThreadState α
  slot : Option α
  stamp : Int

/-- The micro-operations of the cache-hit gate of a cached-fetch operation:
read the slot and the timestamp inside one `RLock` section. -/
def readerProg (α : Type) : List (MicroOp α) :=
  [.rlock, .readSlot, .readStamp, .runlock]

/-- The micro-operations of the stale-fallback read of a cached-fetch
operation: read the slot inside one `RLock` section. -/
def readerSlotProg (α : Type) : List (MicroOp α) :=
  [.rlock, .readSlot, .runlock]

/-- The micro-operations of the store performed after a successful fetch:
write the slot and then the timestamp inside one `Lock` section. -/
def writerProg {α : Type} (v : Option α) (t : Int) : List (MicroOp α) :=
  [.wlock, .writeSlot v, .writeStamp t, .wunlock]

/-- The interleaving semantics: at each step one thread executes its next
micro-operation. Only lock acquisition is guarded; reads and writes are
always enabled. -/
inductive Step {ι α : Type} [DecidableEq ι] : SysState ι α → SysState ι α → Prop where
  | rlock (s : SysState ι α) (i : ι) (rest : List (MicroOp α))
      (hp : (s.threads i).prog = .rlock :: rest)
      (hw : ∀ j, (s.threads j).holdsW = false) :
      Step s { s with threads := (Function.update s.threads i
        { s.threads i with prog := rest, holdsR := true }) }
  | runlock (s : SysState ι α) (i : ι) (rest : List (MicroOp α))
      (hp : (s.threads i).prog = .runlock :: rest)
      (hr : (s.threads i).holdsR = true) :
      Step s { s with threads := (Function.update s.threads i
        { s.threads i with prog := rest, holdsR := false }) }
  | wlock (s : SysState ι α) (i : ι) (rest : List (MicroOp α))
      (hp : (s.threads i).prog = .wlock :: rest)
      (hw : ∀ j, (s.threads j).holdsW = false)
      (hr : ∀ j, (s.threads j).holdsR = false) :
      Step s { s with threads := (Function.update s.threads i
        { s.threads i with prog := rest, holdsW := true }) }
  | wunlock (s : SysState ι α) (i : ι) (rest : List (MicroOp α))
      (hp : (s.threads i).prog = .wunlock :: rest)
      (hw : (s.threads i).holdsW = true) :
      Step s { s with threads := (Function.update s.threads i
        { s.threads i with prog := rest, holdsW := false }) }
  | readSlot (s : SysState ι α) (i : ι) (rest : List (MicroOp α))
      (hp : (s.threads i).prog = .readSlot :: rest) :
      Step s { s with threads := (Function.update s.threads i
        { s.threads i with prog := rest, slotRead := some s.slot }) }
  | readStamp (s : SysState ι α) (i : ι) (rest : List (MicroOp α))
      (hp : (s.threads i).prog = .readStamp :: rest) :
      Step s { s with threads := (Function.update s.threads i
        { s.threads i with prog := rest, stampRead := some s.stamp }) }
  | writeSlot (s : SysState ι α) (i : ι) (v : Option α) (rest : List (MicroOp α))
      (hp : (s.threads i).prog = .writeSlot v :: rest) :
      Step s { s with slot := v, threads := (Function.update s.threads i
        { s.threads i with prog := rest }) }
  | writeStamp (s : SysState ι α) (i : ι) (t : Int) (rest : List (MicroOp α))
      (hp : (s.threads i).prog = .writeStamp t :: rest) :
      Step s { s with stamp := t, threads := (Function.update s.threads i
        { s.threads i with prog := rest }) }

/-- Reachability: finitely many interleaved micro-steps. -/
def Reach {ι α : Type} [DecidableEq ι] : SysState ι α → SysState ι α → Prop :=
  Relation.ReflTransGen Step

/-- An initial system: every thread is a fresh critical section of one of
the cached-fetch operations (pair read, slot-only read, or pair write),
holding nothing and having read nothing. -/
def InitOk {ι α : Type} (s : SysState ι α) : Prop :=
  ∀ i, (s.threads i).slotRead = none ∧ (s.threads i).stampRead = none ∧
    (s.threads i).holdsR = false ∧ (s.threads i).holdsW = false ∧
    ((s.threads i).prog = readerProg α ∨ (s.threads i).prog = readerSlotProg α ∨
      ∃ v t, (s.threads i).prog = writerProg v t)

/-- A complete slot-and-timestamp pair of an execution starting at `s0`:
the initial pair, or the pair some writer section stores. -/
def PairGood {ι α : Type} (s0 : SysState ι α) (p : Option α × Int) : Prop :=
  p = (s0.slot, s0.stamp) ∨ ∃ i v t, (s0.threads i).prog = writerProg v t ∧ p = (v, t)

/-- Stage invariant of one thread: its remaining program is a suffix of one
of the three section programs, its lock flags match the stage, and any
value it has read while still inside its `RLock` section is the current
shared value (`G` is the completeness predicate for frozen observations). -/
def ThreadInv {α : Type} (G : Option α × Int → Prop) (slot : Option α) (stamp : Int)
    (t : ThreadState α) : Prop :=
  (t.prog = readerProg α ∧ t.holdsR = false ∧ t.holdsW = false ∧
    t.slotRead = none ∧ t.stampRead = none) ∨
  (t.prog = [.readSlot, .readStamp, .runlock] ∧ t.holdsR = true ∧ t.holdsW = false ∧
    t.slotRead = none ∧ t.stampRead = none) ∨
  (t.prog = [.readStamp, .runlock] ∧ t.holdsR = true ∧ t.holdsW = false ∧
    t.slotRead = some slot ∧ t.stampRead = none) ∨
  (t.prog = [.runlock] ∧ t.holdsR = true ∧ t.holdsW = false ∧
    t.slotRead = some slot ∧ t.stampRead = some stamp) ∨
  (t.prog = readerSlotProg α ∧ t.holdsR = false ∧ t.holdsW = false ∧
    t.slotRead = none ∧ t.stampRead = none) ∨
  (t.prog = [.readSlot, .runlock] ∧ t.holdsR = true ∧ t.holdsW = false ∧
    t.slotRead = none ∧ t.stampRead = none) ∨
  (t.prog = [.runlock] ∧ t.holdsR = true ∧ t.holdsW = false ∧
    t.slotRead = some slot ∧ t.stampRead = none) ∨
  (t.prog = [] ∧ t.holdsR = false ∧ t.holdsW = false ∧
    ((t.slotRead = none ∧ t.stampRead = none) ∨
     (∃ v, t.slotRead = some v ∧ t.stampRead = none) ∨
     (∃ v ts, t.slotRead = some v ∧ t.stampRead = some ts ∧ G (v, ts)))) ∨
  (∃ v ts, G (v, ts) ∧
    ((t.prog = writerProg v ts ∧ t.holdsR = false ∧ t.holdsW = false ∧
       t.slotRead = none ∧ t.stampRead = none) ∨
     (t.prog = [.writeSlot v, .writeStamp ts, .wunlock] ∧ t.holdsW = true ∧ t.holdsR = false ∧
       t.slotRead = none ∧ t.stampRead = none) ∨
     (t.prog = [.writeStamp ts, .wunlock] ∧ t.holdsW = true ∧ t.holdsR = false ∧ slot = v ∧
       t.slotRead = none ∧ t.stampRead = none) ∨
     (t.prog = [.wunlock] ∧ t.holdsW = true ∧ t.holdsR = false ∧ slot = v ∧ stamp = ts ∧
       t.slotRead = none ∧ t.stampRead = none)))

/-- System invariant: every thread is in a legal stage, readers and writers
never coexist, at most one writer holds the lock, and whenever no writer is
mid-section the shared pair is complete. -/
def SysInv {ι α : Type} (G : Option α × Int → Prop) (s : SysState ι α) : Prop :=
  (∀ i, ThreadInv G s.slot s.stamp (s.threads i)) ∧
  (∀ i j, (s.threads i).holdsR = true → (s.threads j).holdsW = false) ∧
  (∀ i j, (s.threads i).holdsW = true → (s.threads j).holdsW = true → i = j) ∧
  ((∀ i, (s.threads i).holdsW = false) → G (s.slot, s.stamp))

/-- A fresh pair-reader thread over the info source's payload type. -/
def sampleThread0 : ThreadState OCSResponse :=
  ⟨readerProg OCSResponse, none, none, false, false⟩

/-- Concrete initial system: one pair-reader thread, slot populated with
`sampleData` fetched at time 0. -/
def sampleSys0 : SysState (Fin 1) OCSResponse :=
  ⟨fun _ => sampleThread0, some sampleData, 0⟩

/-- `sampleSys0` after the reader acquires the read lock. -/
def sampleSys1 : SysState (Fin 1) OCSResponse :=
  { sampleSys0 with threads := (Function.update sampleSys0.threads 0
      { sampleSys0.threads 0 with prog := [.readSlot, .readStamp, .runlock], holdsR := true }) }

/-- `sampleSys1` after the reader reads the slot. -/
def sampleSys2 : SysState (Fin 1) OCSResponse :=
  { sampleSys1 with threads := (Function.update sampleSys1.threads 0
      { sampleSys1.threads 0 with prog := [.readStamp, .runlock], slotRead := some sampleSys1.slot }) }

/-- `sampleSys2` after the reader reads the timestamp. -/
def sampleSys3 : SysState (Fin 1) OCSResponse :=
  { sampleSys2 with threads := (Function.update sampleSys2.threads 0
      { sampleSys2.threads 0 with prog := [.runlock], stampRead := some sampleSys2.stamp }) }

/-- `sampleSys3` after the reader releases the read lock. -/
def sampleSys4 : SysState (Fin 1) OCSResponse :=
  { sampleSys3 with threads := (Function.update sampleSys3.threads 0
      { sampleSys3.threads 0 with prog := [], holdsR := false }) }

lemma fetchStatusCached_preserves_data (cfg : Config) (c : NextcloudCollector) (now : Int)
    (fs : Except FetchError StatusResponse) :
    (fetchStatusCached cfg c now fs).state.cachedData = c.cachedData ∧
    (fetchStatusCached cfg c now fs).state.lastFetchTime = c.lastFetchTime := by
  cases hc : c.cachedStatus <;> cases fs <;>
    simp [fetchStatusCached, fetchStatusFetchPath, hc] <;> split <;> simp [hc]

lemma fetchDataCached_preserves_status (cfg : Config) (c : NextcloudCollector) (now : Int)
    (fd : Except FetchError OCSResponse) :
    (fetchDataCached cfg c now fd).state.cachedStatus = c.cachedStatus ∧
    (fetchDataCached cfg c now fd).state.lastStatusFetch = c.lastStatusFetch := by
  cases hc : c.cachedData <;> cases fd <;>
    simp [fetchDataCached, fetchDataFetchPath, hc] <;> split <;> simp [hc]

lemma fetchDataCached_congr (cfg : Config) (now : Int) (fd : Except FetchError OCSResponse)
    (c c' : NextcloudCollector) (h1 : c'.cachedData = c.cachedData)
    (h2 : c'.lastFetchTime = c.lastFetchTime) :
    (fetchDataCached cfg c' now fd).result = (fetchDataCached cfg c now fd).result ∧
    (fetchDataCached cfg c' now fd).attempted = (fetchDataCached cfg c now fd).attempted ∧
    (fetchDataCached cfg c' now fd).warned = (fetchDataCached cfg c now fd).warned ∧
    (fetchDataCached cfg c' now fd).state.cachedData = (fetchDataCached cfg c now fd).state.cachedData ∧
    (fetchDataCached cfg c' now fd).state.lastFetchTime = (fetchDataCached cfg c now fd).state.lastFetchTime := by
  cases hc : c.cachedData <;> cases fd <;>
    simp [fetchDataCached, fetchDataFetchPath, hc, h1, h2] <;> split <;> simp [hc, h1, h2]

lemma fetchStatusCached_congr (cfg : Config) (now : Int) (fs : Except FetchError StatusResponse)
    (c c' : NextcloudCollector) (h1 : c'.cachedStatus = c.cachedStatus)
    (h2 : c'.lastStatusFetch = c.lastStatusFetch) :
    (fetchStatusCached cfg c' now fs).result = (fetchStatusCached cfg c now fs).result ∧
    (fetchStatusCached cfg c' now fs).attempted = (fetchStatusCached cfg c now fs).attempted ∧
    (fetchStatusCached cfg c' now fs).warned = (fetchStatusCached cfg c now fs).warned ∧
    (fetchStatusCached cfg c' now fs).state.cachedStatus = (fetchStatusCached cfg c now fs).state.cachedStatus ∧
    (fetchStatusCached cfg c' now fs).state.lastStatusFetch = (fetchStatusCached cfg c now fs).state.lastStatusFetch := by
  cases hc : c.cachedStatus <;> cases fs <;>
    simp [fetchStatusCached, fetchStatusFetchPath, hc, h1, h2] <;> split <;> simp [hc, h1, h2]

lemma collect_metrics_eq (cfg : Config) (c : NextcloudCollector) (now : Int)
    (fs : Except FetchError StatusResponse) (fd : Except FetchError OCSResponse) :
    (Collect cfg c now fs fd).metrics =
      (match (fetchStatusCached cfg c now fs).result with
       | .error _ => []
       | .ok st => collectStatusMetrics st) ++
      (match (fetchDataCached cfg c now fd).result with
       | .error _ => [⟨"nextcloud_scrape_success", [], 0⟩]
       | .ok d => [⟨"nextcloud_scrape_success", [], 1⟩] ++ collectAllMetrics d) := by
  have hpres := fetchStatusCached_preserves_data cfg c now fs
  have hcong := fetchDataCached_congr cfg now fd c (fetchStatusCached cfg c now fs).state
    hpres.1 hpres.2
  simp only [Collect]
  rw [hcong.1]
  rcases hs : (fetchStatusCached cfg c now fs).result with e | st <;>
    rcases hd : (fetchDataCached cfg c now fd).result with e2 | d <;>
      simp [hs, hd]

lemma collect_state_eq (cfg : Config) (c : NextcloudCollector) (now : Int)
    (fs : Except FetchError StatusResponse) (fd : Except FetchError OCSResponse) :
    (Collect cfg c now fs fd).state =
      (fetchDataCached cfg (fetchStatusCached cfg c now fs).state now fd).state := by
  simp only [Collect]
  split <;> rfl



lemma statusMetrics_filter_serverinfo (st : StatusResponse) :
    (collectStatusMetrics st).filter isServerinfoMetric = [] := by
  simp [collectStatusMetrics, isServerinfoMetric, serverinfoMetricNames]

lemma allMetrics_filter_status (d : OCSResponse) :
    (collectAllMetrics d).filter isStatusMetric = [] := by
  simp only [collectAllMetrics, isStatusMetric, statusMetricNames]
  rcases hp : parseInt64 d.ocs.data.server.database.size with _ | n <;>
    rcases Nat.lt_or_ge d.ocs.data.nextcloud.system.cpuLoad.length 3 with hl | hl <;>
      simp [hp, Nat.not_le.mpr hl, hl, isStatusMetric, statusMetricNames]

lemma statusMetrics_no_scrape (st : StatusResponse) :
    (collectStatusMetrics st).filter (fun m => m.name == "nextcloud_scrape_success") = [] := by
  simp [collectStatusMetrics]

lemma allMetrics_no_scrape (d : OCSResponse) :
    (collectAllMetrics d).filter (fun m => m.name == "nextcloud_scrape_success") = [] := by
  simp only [collectAllMetrics]
  rcases hp : parseInt64 d.ocs.data.server.database.size with _ | n <;>
    rcases Nat.lt_or_ge d.ocs.data.nextcloud.system.cpuLoad.length 3 with hl | hl <;>
      simp [hp, Nat.not_le.mpr hl, hl]

lemma scrape_success_value (cfg : Config) (c : NextcloudCollector) (now : Int)
    (fs : Except FetchError StatusResponse) (fd : Except FetchError OCSResponse) :
    metricValues (Collect cfg c now fs fd).metrics "nextcloud_scrape_success" =
      [if exceptOk (fetchDataCached cfg c now fd).result then 1 else 0] := by
  rw [metricValues, collect_metrics_eq, List.filter_append]
  rcases hs : (fetchStatusCached cfg c now fs).result with e | st <;>
    rcases hd : (fetchDataCached cfg c now fd).result with e2 | d
  · simp [exceptOk]
  · rw [List.filter_append, allMetrics_no_scrape]
    simp [exceptOk]
  · rw [statusMetrics_no_scrape]
    simp [exceptOk]
  · rw [statusMetrics_no_scrape, List.filter_append, allMetrics_no_scrape]
    simp [exceptOk]



lemma scrape_success_not_serverinfo (v : Rat) :
    isServerinfoMetric ⟨"nextcloud_scrape_success", [], v⟩ = false := by
  simp [isServerinfoMetric, serverinfoMetricNames]

lemma scrape_success_not_status (v : Rat) :
    isStatusMetric ⟨"nextcloud_scrape_success", [], v⟩ = false := by
  simp [isStatusMetric, statusMetricNames]

lemma statusMetrics_serverinfo_mem (st : StatusResponse) :
    ∀ a ∈ collectStatusMetrics st, isServerinfoMetric a = false := by
  have h := statusMetrics_filter_serverinfo st
  rw [List.filter_eq_nil_iff] at h
  intro a ha
  simpa using h a ha

lemma allMetrics_status_mem (d : OCSResponse) :
    ∀ a ∈ collectAllMetrics d, isStatusMetric a = false := by
  have h := allMetrics_filter_status d
  rw [List.filter_eq_nil_iff] at h
  intro a ha
  simpa using h a ha

lemma collect_filter_serverinfo (cfg : Config) (c : NextcloudCollector) (now : Int)
    (fs : Except FetchError StatusResponse) (fd : Except FetchError OCSResponse) :
    (Collect cfg c now fs fd).metrics.filter isServerinfoMetric =
      (match (fetchDataCached cfg c now fd).result with
       | .error _ => []
       | .ok d => (collectAllMetrics d).filter isServerinfoMetric) := by
  rw [collect_metrics_eq, List.filter_append]
  rcases hs : (fetchStatusCached cfg c now fs).result with e | st <;>
    rcases hd : (fetchDataCached cfg c now fd).result with e2 | d <;>
      simp [List.filter_append, List.filter_cons, statusMetrics_filter_serverinfo,
        scrape_success_not_serverinfo, statusMetrics_serverinfo_mem]

lemma collect_filter_status (cfg : Config) (c : NextcloudCollector) (now : Int)
    (fs : Except FetchError StatusResponse) (fd : Except FetchError OCSResponse) :
    (Collect cfg c now fs fd).metrics.filter isStatusMetric =
      (match (fetchStatusCached cfg c now fs).result with
       | .error _ => []
       | .ok st => (collectStatusMetrics st).filter isStatusMetric) := by
  rw [collect_metrics_eq, List.filter_append]
  rcases hs : (fetchStatusCached cfg c now fs).result with e | st <;>
    rcases hd : (fetchDataCached cfg c now fd).result with e2 | d <;>
      simp [List.filter_append, List.filter_cons, allMetrics_filter_status,
        scrape_success_not_status, allMetrics_status_mem]



lemma fetchStatusCached_error_state (cfg : Config) (c : NextcloudCollector) (now : Int)
    (e : FetchError) : (fetchStatusCached cfg c now (.error e)).state = c := by
  cases hc : c.cachedStatus <;>
    simp [fetchStatusCached, fetchStatusFetchPath, hc]
  split <;> rfl

lemma fetchDataCached_error_state (cfg : Config) (c : NextcloudCollector) (now : Int)
    (e : FetchError) : (fetchDataCached cfg c now (.error e)).state = c := by
  cases hc : c.cachedData <;>
    simp [fetchDataCached, fetchDataFetchPath, hc]
  split <;> rfl

lemma fetchStatusCached_none_error (cfg : Config) (c : NextcloudCollector) (now : Int)
    (e : FetchError) (hc : c.cachedStatus = none) :
    (fetchStatusCached cfg c now (.error e)).result = .error e := by
  simp [fetchStatusCached, fetchStatusFetchPath, hc]

lemma fetchDataCached_none_error (cfg : Config) (c : NextcloudCollector) (now : Int)
    (e : FetchError) (hc : c.cachedData = none) :
    (fetchDataCached cfg c now (.error e)).result = .error e := by
  simp [fetchDataCached, fetchDataFetchPath, hc]

/-- C4: with an empty cache slot for a source, a failing upstream fetch
makes that source's cached-fetch operation return the error, and the scrape
emits none of that source's payload-derived metrics; for the info source
the scrape additionally emits the `nextcloud_scrape_success` indicator with
value 0 instead of any serverinfo metrics. -/
theorem no_cache_failure (cfg : Config) (c : NextcloudCollector) (now : Int) :
    (∀ e fd, c.cachedStatus = none →
      (fetchStatusCached cfg c now (.error e)).result = .error e ∧
      (Collect cfg c now (.error e) fd).metrics.filter isStatusMetric = []) ∧
    (∀ e fs, c.cachedData = none →
      (fetchDataCached cfg c now (.error e)).result = .error e ∧
      (Collect cfg c now fs (.error e)).metrics.filter isServerinfoMetric = [] ∧
      metricValues (Collect cfg c now fs (.error e)).metrics "nextcloud_scrape_success" = [0]) := by
  constructor
  · intro e fd hc
    refine ⟨fetchStatusCached_none_error cfg c now e hc, ?_⟩
    rw [collect_filter_status, fetchStatusCached_none_error cfg c now e hc]
  · intro e fs hc
    refine ⟨fetchDataCached_none_error cfg c now e hc, ?_, ?_⟩
    · rw [collect_filter_serverinfo, fetchDataCached_none_error cfg c now e hc]
    · rw [scrape_success_value, fetchDataCached_none_error cfg c now e hc]
      simp [exceptOk]

/-- C5: on every scrape `nextcloud_scrape_success` is emitted exactly once,
with value 1 exactly when the info-source cached fetch resolves to a
payload (fresh or stale-served) and value 0 exactly when it fails; its
value does not depend on the status-source oracle or the status-source
cache fields. -/
theorem scrape_health_signal (cfg : Config) (c : NextcloudCollector) (now : Int)
    (fs : Except FetchError StatusResponse) (fd : Except FetchError OCSResponse) :
    (metricValues (Collect cfg c now fs fd).metrics "nextcloud_scrape_success" = [1] ↔
      ∃ d, (fetchDataCached cfg c now fd).result = .ok d) ∧
    (metricValues (Collect cfg c now fs fd).metrics "nextcloud_scrape_success" = [0] ↔
      ∃ e, (fetchDataCached cfg c now fd).result = .error e) ∧
    (∀ fs' (c' : NextcloudCollector), c'.cachedData = c.cachedData →
      c'.lastFetchTime = c.lastFetchTime →
      metricValues (Collect cfg c' now fs' fd).metrics "nextcloud_scrape_success" =
        metricValues (Collect cfg c now fs fd).metrics "nextcloud_scrape_success") := by
  refine ⟨?_, ?_, ?_⟩
  · rw [scrape_success_value]
    rcases hd : (fetchDataCached cfg c now fd).result with e | d <;> simp [exceptOk]
  · rw [scrape_success_value]
    rcases hd : (fetchDataCached cfg c now fd).result with e | d <;> simp [exceptOk]
  · intro fs' c' h1 h2
    rw [scrape_success_value, scrape_success_value,
      (fetchDataCached_congr cfg now fd c c' h1 h2).1]

/-- C6: in one scrape, the status-source outcome does not change the
serverinfo metrics emitted or the info source's cache fields afterwards,
and the info-source outcome does not change the status metrics emitted or
the status source's cache fields afterwards; each cached-fetch operation's
outcome depends only on its own source's slot and timestamp. -/
theorem source_independence (cfg : Config) (c : NextcloudCollector) (now : Int) :
    (∀ fs fs' fd,
      (Collect cfg c now fs fd).metrics.filter isServerinfoMetric =
        (Collect cfg c now fs' fd).metrics.filter isServerinfoMetric ∧
      (Collect cfg c now fs fd).state.cachedData =
        (Collect cfg c now fs' fd).state.cachedData ∧
      (Collect cfg c now fs fd).state.lastFetchTime =
        (Collect cfg c now fs' fd).state.lastFetchTime) ∧
    (∀ fs fd fd',
      (Collect cfg c now fs fd).metrics.filter isStatusMetric =
        (Collect cfg c now fs fd').metrics.filter isStatusMetric ∧
      (Collect cfg c now fs fd).state.cachedStatus =
        (Collect cfg c now fs fd').state.cachedStatus ∧
      (Collect cfg c now fs fd).state.lastStatusFetch =
        (Collect cfg c now fs fd').state.lastStatusFetch) ∧
    (∀ (c' : NextcloudCollector) fd, c'.cachedData = c.cachedData →
      c'.lastFetchTime = c.lastFetchTime →
      (fetchDataCached cfg c' now fd).result = (fetchDataCached cfg c now fd).result ∧
      (fetchDataCached cfg c' now fd).attempted = (fetchDataCached cfg c now fd).attempted) ∧
    (∀ (c' : NextcloudCollector) fs, c'.cachedStatus = c.cachedStatus →
      c'.lastStatusFetch = c.lastStatusFetch →
      (fetchStatusCached cfg c' now fs).result = (fetchStatusCached cfg c now fs).result ∧
      (fetchStatusCached cfg c' now fs).attempted = (fetchStatusCached cfg c now fs).attempted) := by
  refine ⟨?_, ?_, ?_, ?_⟩
  · intro fs fs' fd
    refine ⟨by rw [collect_filter_serverinfo, collect_filter_serverinfo], ?_, ?_⟩
    · rw [collect_state_eq, collect_state_eq]
      have h1 := fetchStatusCached_preserves_data cfg c now fs
      have h2 := fetchStatusCached_preserves_data cfg c now fs'
      rw [(fetchDataCached_congr cfg now fd c _ h1.1 h1.2).2.2.2.1,
        (fetchDataCached_congr cfg now fd c _ h2.1 h2.2).2.2.2.1]
    · rw [collect_state_eq, collect_state_eq]
      have h1 := fetchStatusCached_preserves_data cfg c now fs
      have h2 := fetchStatusCached_preserves_data cfg c now fs'
      rw [(fetchDataCached_congr cfg now fd c _ h1.1 h1.2).2.2.2.2,
        (fetchDataCached_congr cfg now fd c _ h2.1 h2.2).2.2.2.2]
  · intro fs fd fd'
    refine ⟨by rw [collect_filter_status, collect_filter_status], ?_, ?_⟩
    · rw [collect_state_eq, collect_state_eq,
        (fetchDataCached_preserves_status cfg _ now fd).1,
        (fetchDataCached_preserves_status cfg _ now fd').1]
    · rw [collect_state_eq, collect_state_eq,
        (fetchDataCached_preserves_status cfg _ now fd).2,
        (fetchDataCached_preserves_status cfg _ now fd').2]
  · intro c' fd h1 h2
    exact ⟨(fetchDataCached_congr cfg now fd c c' h1 h2).1,
      (fetchDataCached_congr cfg now fd c c' h1 h2).2.1⟩
  · intro c' fs h1 h2
    exact ⟨(fetchStatusCached_congr cfg now fs c c' h1 h2).1,
      (fetchStatusCached_congr cfg now fs c c' h1 h2).2.1⟩



lemma fetchDataCached_cachedData_cases (cfg : Config) (c : NextcloudCollector) (now : Int)
    (fd : Except FetchError OCSResponse) :
    (fetchDataCached cfg c now fd).state.cachedData = c.cachedData ∨
      ∃ v, fd = .ok v ∧ (fetchDataCached cfg c now fd).state.cachedData = some v := by
  rcases fd with e | v
  · left
    rw [fetchDataCached_error_state]
  · cases hc : c.cachedData with
    | none =>
      right
      exact ⟨v, rfl, by simp [fetchDataCached, hc, fetchDataFetchPath]⟩
    | some d0 =>
      by_cases hlt : now - c.lastFetchTime < cfg.fetchInterval
      · left
        simp [fetchDataCached, hc, hlt]
      · right
        exact ⟨v, rfl, by simp [fetchDataCached, hc, hlt, fetchDataFetchPath]⟩

lemma fetchStatusCached_cachedStatus_cases (cfg : Config) (c : NextcloudCollector) (now : Int)
    (fs : Except FetchError StatusResponse) :
    (fetchStatusCached cfg c now fs).state.cachedStatus = c.cachedStatus ∨
      ∃ v, fs = .ok v ∧ (fetchStatusCached cfg c now fs).state.cachedStatus = some v := by
  rcases fs with e | v
  · left
    rw [fetchStatusCached_error_state]
  · cases hc : c.cachedStatus with
    | none =>
      right
      exact ⟨v, rfl, by simp [fetchStatusCached, hc, fetchStatusFetchPath]⟩
    | some s0 =>
      by_cases hlt : now - c.lastStatusFetch < cfg.fetchInterval
      · left
        simp [fetchStatusCached, hc, hlt]
      · right
        exact ⟨v, rfl, by simp [fetchStatusCached, hc, hlt, fetchStatusFetchPath]⟩

lemma scrapeStep_data_cases (cfg : Config) (c : NextcloudCollector) (i : ScrapeInput) :
    (scrapeStep cfg c i).cachedData = c.cachedData ∨
      ∃ v, i.dataFetched = .ok v ∧ (scrapeStep cfg c i).cachedData = some v := by
  unfold scrapeStep
  rw [collect_state_eq]
  have hpres := fetchStatusCached_preserves_data cfg c i.now i.statusFetched
  rcases fetchDataCached_cachedData_cases cfg
      (fetchStatusCached cfg c i.now i.statusFetched).state i.now i.dataFetched with h | ⟨v, hv, h⟩
  · left
    rw [h, hpres.1]
  · right
    exact ⟨v, hv, h⟩

lemma scrapeStep_status_cases (cfg : Config) (c : NextcloudCollector) (i : ScrapeInput) :
    (scrapeStep cfg c i).cachedStatus = c.cachedStatus ∨
      ∃ v, i.statusFetched = .ok v ∧ (scrapeStep cfg c i).cachedStatus = some v := by
  unfold scrapeStep
  rw [collect_state_eq]
  have hpres := fetchDataCached_preserves_status cfg
    (fetchStatusCached cfg c i.now i.statusFetched).state i.now i.dataFetched
  rcases fetchStatusCached_cachedStatus_cases cfg c i.now i.statusFetched with h | ⟨v, hv, h⟩
  · left
    rw [hpres.1, h]
  · right
    exact ⟨v, hv, by rw [hpres.1, h]⟩

lemma runScrapes_data_cases (cfg : Config) :
    ∀ (inputs : List ScrapeInput) (c : NextcloudCollector),
      (runScrapes cfg c inputs).cachedData = c.cachedData ∨
        ∃ i ∈ inputs, ∃ v, i.dataFetched = .ok v ∧
          (runScrapes cfg c inputs).cachedData = some v := by
  intro inputs
  induction inputs with
  | nil => exact fun c => Or.inl rfl
  | cons i rest ih =>
    intro c
    have hrun : runScrapes cfg c (i :: rest) = runScrapes cfg (scrapeStep cfg c i) rest := rfl
    rcases ih (scrapeStep cfg c i) with h | ⟨j, hj, v, hv, hd⟩
    · rcases scrapeStep_data_cases cfg c i with h2 | ⟨v, hv, h2⟩
      · left
        rw [hrun, h, h2]
      · right
        exact ⟨i, by simp, v, hv, by rw [hrun, h, h2]⟩
    · right
      exact ⟨j, by simp [hj], v, hv, by rw [hrun]; exact hd⟩

lemma runScrapes_status_cases (cfg : Config) :
    ∀ (inputs : List ScrapeInput) (c : NextcloudCollector),
      (runScrapes cfg c inputs).cachedStatus = c.cachedStatus ∨
        ∃ i ∈ inputs, ∃ v, i.statusFetched = .ok v ∧
          (runScrapes cfg c inputs).cachedStatus = some v := by
  intro inputs
  induction inputs with
  | nil => exact fun c => Or.inl rfl
  | cons i rest ih =>
    intro c
    have hrun : runScrapes cfg c (i :: rest) = runScrapes cfg (scrapeStep cfg c i) rest := rfl
    rcases ih (scrapeStep cfg c i) with h | ⟨j, hj, v, hv, hd⟩
    · rcases scrapeStep_status_cases cfg c i with h2 | ⟨v, hv, h2⟩
      · left
        rw [hrun, h, h2]
      · right
        exact ⟨i, by simp, v, hv, by rw [hrun, h, h2]⟩
    · right
      exact ⟨j, by simp [hj], v, hv, by rw [hrun]; exact hd⟩

/-- C3: after any sequence of scrapes from the initial state, each cache
slot is either still empty or holds exactly a payload returned by some
successful fetch of that scrape sequence; a failed fetch leaves the whole
collector state untouched, and a successful fetch either leaves the slot
unchanged (cache hit) or replaces it wholesale with the fetched payload. -/
theorem cache_purity (cfg : Config) (inputs : List ScrapeInput) :
    ((runScrapes cfg initialCollector inputs).cachedData = none ∨
      ∃ i ∈ inputs, ∃ v, i.dataFetched = .ok v ∧
        (runScrapes cfg initialCollector inputs).cachedData = some v) ∧
    ((runScrapes cfg initialCollector inputs).cachedStatus = none ∨
      ∃ i ∈ inputs, ∃ v, i.statusFetched = .ok v ∧
        (runScrapes cfg initialCollector inputs).cachedStatus = some v) ∧
    (∀ (c : NextcloudCollector) (now : Int) (e : FetchError),
      (fetchDataCached cfg c now (.error e)).state = c ∧
      (fetchStatusCached cfg c now (.error e)).state = c) ∧
    (∀ (c : NextcloudCollector) (now : Int) (d : OCSResponse),
      (fetchDataCached cfg c now (.ok d)).state.cachedData = c.cachedData ∨
      (fetchDataCached cfg c now (.ok d)).state.cachedData = some d) ∧
    (∀ (c : NextcloudCollector) (now : Int) (st : StatusResponse),
      (fetchStatusCached cfg c now (.ok st)).state.cachedStatus = c.cachedStatus ∨
      (fetchStatusCached cfg c now (.ok st)).state.cachedStatus = some st) := by
  refine ⟨?_, ?_, ?_, ?_, ?_⟩
  · rcases runScrapes_data_cases cfg inputs initialCollector with h | ⟨i, hi, v, hv, hd⟩
    · left
      exact h
    · right
      exact ⟨i, hi, v, hv, hd⟩
  · rcases runScrapes_status_cases cfg inputs initialCollector with h | ⟨i, hi, v, hv, hd⟩
    · left
      exact h
    · right
      exact ⟨i, hi, v, hv, hd⟩
  · exact fun c now e =>
      ⟨fetchDataCached_error_state cfg c now e, fetchStatusCached_error_state cfg c now e⟩
  · intro c now d
    rcases fetchDataCached_cachedData_cases cfg c now (.ok d) with h | ⟨v, hv, h⟩
    · exact Or.inl h
    · cases hv
      exact Or.inr h
  · intro c now st
    rcases fetchStatusCached_cachedStatus_cases cfg c now (.ok st) with h | ⟨v, hv, h⟩
    · exact Or.inl h
    · cases hv
      exact Or.inr h



/-- C10: the `nextcloud_system_cpuload` metric is emitted exactly when the
payload's CPU-load list has at least 3 elements, in which case exactly
three observations are emitted — elements 0, 1 and 2 labeled "1m", "5m"
and "15m" — and further elements are ignored; metrics other than
`nextcloud_system_cpuload` do not depend on the CPU-load list at all. -/
theorem cpuload_emission (d : OCSResponse) :
    (metricsNamed (collectAllMetrics d) "nextcloud_system_cpuload" =
      if 3 ≤ d.ocs.data.nextcloud.system.cpuLoad.length then
        [⟨"nextcloud_system_cpuload", ["1m"], d.ocs.data.nextcloud.system.cpuLoad.getD 0 0⟩,
         ⟨"nextcloud_system_cpuload", ["5m"], d.ocs.data.nextcloud.system.cpuLoad.getD 1 0⟩,
         ⟨"nextcloud_system_cpuload", ["15m"], d.ocs.data.nextcloud.system.cpuLoad.getD 2 0⟩]
      else []) ∧
    (∀ l, (collectAllMetrics (setCpuLoad d l)).filter
        (fun m => !(m.name == "nextcloud_system_cpuload")) =
      (collectAllMetrics d).filter (fun m => !(m.name == "nextcloud_system_cpuload"))) := by
  constructor
  · rcases hp : parseInt64 d.ocs.data.server.database.size with _ | n <;>
      rcases Nat.lt_or_ge d.ocs.data.nextcloud.system.cpuLoad.length 3 with hl | hl <;>
        simp [metricsNamed, collectAllMetrics, hp, hl, Nat.not_le.mpr hl]
  · intro l
    rcases hp : parseInt64 d.ocs.data.server.database.size with _ | n <;>
      rcases Nat.lt_or_ge d.ocs.data.nextcloud.system.cpuLoad.length 3 with hl | hl <;>
        rcases Nat.lt_or_ge l.length 3 with hl2 | hl2 <;>
          simp [collectAllMetrics, setCpuLoad, hp, hl, hl2,
            Nat.not_le.mpr hl, Nat.not_le.mpr hl2]



set_option maxHeartbeats 3200000 in
/-- C9: for every served serverinfo payload, the four memory metrics
`nextcloud_system_mem_total_bytes`, `nextcloud_system_mem_free_bytes`,
`nextcloud_system_swap_total_bytes` and `nextcloud_system_swap_free_bytes`
equal the corresponding payload fields multiplied by exactly 1024, while
every other numeric metric equals its payload field unscaled. -/
theorem memory_unit_conversion (d : OCSResponse) :
    (metricValues (collectAllMetrics d) "nextcloud_system_mem_total_bytes" =
      [(d.ocs.data.nextcloud.system.memTotal : Rat) * 1024] ∧
     metricValues (collectAllMetrics d) "nextcloud_system_mem_free_bytes" =
      [(d.ocs.data.nextcloud.system.memFree : Rat) * 1024] ∧
     metricValues (collectAllMetrics d) "nextcloud_system_swap_total_bytes" =
      [(d.ocs.data.nextcloud.system.swapTotal : Rat) * 1024] ∧
     metricValues (collectAllMetrics d) "nextcloud_system_swap_free_bytes" =
      [(d.ocs.data.nextcloud.system.swapFree : Rat) * 1024]) ∧
    (metricValues (collectAllMetrics d) "nextcloud_system_freespace_bytes" =
      [(d.ocs.data.nextcloud.system.freeSpace : Rat)] ∧
     metricValues (collectAllMetrics d) "nextcloud_system_cpu_count" =
      [(d.ocs.data.nextcloud.system.cpuNum : Rat)] ∧
     metricValues (collectAllMetrics d) "nextcloud_apps_installed_total" =
      [(d.ocs.data.nextcloud.system.apps.numInstalled : Rat)] ∧
     metricValues (collectAllMetrics d) "nextcloud_apps_updates_available_total" =
      [(d.ocs.data.nextcloud.system.apps.numUpdatesAvailable : Rat)] ∧
     metricValues (collectAllMetrics d) "nextcloud_users_total" =
      [(d.ocs.data.nextcloud.storage.numUsers : Rat)] ∧
     metricValues (collectAllMetrics d) "nextcloud_files_total" =
      [(d.ocs.data.nextcloud.storage.numFiles : Rat)] ∧
     metricValues (collectAllMetrics d) "nextcloud_storages_total" =
      [(d.ocs.data.nextcloud.storage.numStorages : Rat)] ∧
     metricValues (collectAllMetrics d) "nextcloud_storages_local_total" =
      [(d.ocs.data.nextcloud.storage.numStoragesLocal : Rat)] ∧
     metricValues (collectAllMetrics d) "nextcloud_storages_home_total" =
      [(d.ocs.data.nextcloud.storage.numStoragesHome : Rat)] ∧
     metricValues (collectAllMetrics d) "nextcloud_storages_other_total" =
      [(d.ocs.data.nextcloud.storage.numStoragesOther : Rat)]) ∧
    (metricValues (collectAllMetrics d) "nextcloud_shares_total" =
      [(d.ocs.data.nextcloud.shares.numShares : Rat)] ∧
     metricValues (collectAllMetrics d) "nextcloud_shares_user_total" =
      [(d.ocs.data.nextcloud.shares.numSharesUser : Rat)] ∧
     metricValues (collectAllMetrics d) "nextcloud_shares_groups_total" =
      [(d.ocs.data.nextcloud.shares.numSharesGroups : Rat)] ∧
     metricValues (collectAllMetrics d) "nextcloud_shares_link_total" =
      [(d.ocs.data.nextcloud.shares.numSharesLink : Rat)] ∧
     metricValues (collectAllMetrics d) "nextcloud_shares_mail_total" =
      [(d.ocs.data.nextcloud.shares.numSharesMail : Rat)] ∧
     metricValues (collectAllMetrics d) "nextcloud_shares_room_total" =
      [(d.ocs.data.nextcloud.shares.numSharesRoom : Rat)] ∧
     metricValues (collectAllMetrics d) "nextcloud_shares_link_no_password_total" =
      [(d.ocs.data.nextcloud.shares.numSharesLinkNoPassword : Rat)] ∧
     metricValues (collectAllMetrics d) "nextcloud_shares_federated_sent_total" =
      [(d.ocs.data.nextcloud.shares.numFedSharesSent : Rat)] ∧
     metricValues (collectAllMetrics d) "nextcloud_shares_federated_received_total" =
      [(d.ocs.data.nextcloud.shares.numFedSharesReceived : Rat)]) ∧
    (metricValues (collectAllMetrics d) "nextcloud_php_memory_limit_bytes" =
      [(d.ocs.data.server.php.memoryLimit : Rat)] ∧
     metricValues (collectAllMetrics d) "nextcloud_php_upload_max_filesize_bytes" =
      [(d.ocs.data.server.php.uploadMaxFilesize : Rat)] ∧
     metricValues (collectAllMetrics d) "nextcloud_php_opcache_memory_used_bytes" =
      [(d.ocs.data.server.php.opcache.memoryUsage.usedMemory : Rat)] ∧
     metricValues (collectAllMetrics d) "nextcloud_php_opcache_memory_free_bytes" =
      [(d.ocs.data.server.php.opcache.memoryUsage.freeMemory : Rat)] ∧
     metricValues (collectAllMetrics d) "nextcloud_php_opcache_hit_rate" =
      [d.ocs.data.server.php.opcache.opcacheStatistics.opcacheHitRate]) ∧
    (metricValues (collectAllMetrics d) "nextcloud_active_users" =
      [(d.ocs.data.activeUsers.last5Minutes : Rat), (d.ocs.data.activeUsers.last1Hour : Rat),
       (d.ocs.data.activeUsers.last24Hours : Rat), (d.ocs.data.activeUsers.last7Days : Rat),
       (d.ocs.data.activeUsers.last1Month : Rat), (d.ocs.data.activeUsers.last3Months : Rat),
       (d.ocs.data.activeUsers.last6Months : Rat), (d.ocs.data.activeUsers.lastYear : Rat)]) ∧
    (∀ n, parseInt64 d.ocs.data.server.database.size = some n →
      metricValues (collectAllMetrics d) "nextcloud_database_size_bytes" = [(n : Rat)]) ∧
    (3 ≤ d.ocs.data.nextcloud.system.cpuLoad.length →
      metricValues (collectAllMetrics d) "nextcloud_system_cpuload" =
        [d.ocs.data.nextcloud.system.cpuLoad.getD 0 0,
         d.ocs.data.nextcloud.system.cpuLoad.getD 1 0,
         d.ocs.data.nextcloud.system.cpuLoad.getD 2 0]) := by
  rcases hp : parseInt64 d.ocs.data.server.database.size with _ | n <;>
    rcases Nat.lt_or_ge d.ocs.data.nextcloud.system.cpuLoad.length 3 with hl | hl <;>
      simp [metricValues, collectAllMetrics, hp, hl, Nat.not_le.mpr hl]

/-- C1: with a cached snapshot younger than the fetch interval, both
fetchStatusCached and fetchDataCached return the cached snapshot, attempt
no upstream fetch, and leave the collector state (snapshot and timestamp)
unchanged. -/
theorem interval_gating (cfg : Config) (c : NextcloudCollector) (now : Int)
    (fs : Except FetchError StatusResponse) (fd : Except FetchError OCSResponse) :
    (∀ st, c.cachedStatus = some st → now - c.lastStatusFetch < cfg.fetchInterval →
      fetchStatusCached cfg c now fs = ⟨.ok st, c, false, false⟩) ∧
    (∀ d, c.cachedData = some d → now - c.lastFetchTime < cfg.fetchInterval →
      fetchDataCached cfg c now fd = ⟨.ok d, c, false, false⟩) := by
  constructor
  · intro st hs ht
    simp [fetchStatusCached, hs, ht]
  · intro d hd ht
    simp [fetchDataCached, hd, ht]

/-- Evaluation of `interval_gating` on concrete inputs: both slots cached at
time 0, scrape at time 5 with interval 30, failing fetch oracles. -/
theorem interval_gating_witness :
    fetchStatusCached sampleConfig sampleCollector 5 (.error .rateLimited) =
      ⟨.ok sampleStatus, sampleCollector, false, false⟩ ∧
    fetchDataCached sampleConfig sampleCollector 5 (.error .rateLimited) =
      ⟨.ok sampleData, sampleCollector, false, false⟩ :=
  ⟨(interval_gating sampleConfig sampleCollector 5 (.error .rateLimited)
      (.error .rateLimited)).1 sampleStatus rfl (by decide),
   (interval_gating sampleConfig sampleCollector 5 (.error .rateLimited)
      (.error .rateLimited)).2 sampleData rfl (by decide)⟩

/-- C2: with a cached snapshot present and the interval elapsed, a failing
upstream fetch makes both cached-fetch operations return the cached
snapshot without error, log the stale-data warning, and leave the collector
state (snapshot and timestamp) unchanged; the fetch error is absorbed. -/
theorem stale_fallback (cfg : Config) (c : NextcloudCollector) (now : Int) (e : FetchError) :
    (∀ st, c.cachedStatus = some st → cfg.fetchInterval ≤ now - c.lastStatusFetch →
      fetchStatusCached cfg c now (.error e) = ⟨.ok st, c, true, true⟩) ∧
    (∀ d, c.cachedData = some d → cfg.fetchInterval ≤ now - c.lastFetchTime →
      fetchDataCached cfg c now (.error e) = ⟨.ok d, c, true, true⟩) := by
  constructor
  · intro st hs ht
    simp [fetchStatusCached, hs, not_lt.mpr ht, fetchStatusFetchPath]
  · intro d hd ht
    simp [fetchDataCached, hd, not_lt.mpr ht, fetchDataFetchPath]

/-- Evaluation of `stale_fallback` on concrete inputs: both slots cached at
time 0, scrape at time 60 with interval 30, failing fetch oracles. -/
theorem stale_fallback_witness :
    fetchStatusCached sampleConfig sampleCollector 60 (.error .executingRequest) =
      ⟨.ok sampleStatus, sampleCollector, true, true⟩ ∧
    fetchDataCached sampleConfig sampleCollector 60 (.error .executingRequest) =
      ⟨.ok sampleData, sampleCollector, true, true⟩ :=
  ⟨(stale_fallback sampleConfig sampleCollector 60 .executingRequest).1
      sampleStatus rfl (by decide),
   (stale_fallback sampleConfig sampleCollector 60 .executingRequest).2
      sampleData rfl (by decide)⟩

/-- C7: with an empty cache slot or the interval elapsed, a successful
upstream fetch makes both cached-fetch operations return the fresh payload,
store it in the slot (replacing any prior snapshot), and set the source's
fetch timestamp to the current time. -/
theorem refresh_updates_cache (cfg : Config) (c : NextcloudCollector) (now : Int) :
    (∀ st, (c.cachedStatus = none ∨ cfg.fetchInterval ≤ now - c.lastStatusFetch) →
      fetchStatusCached cfg c now (.ok st) =
        ⟨.ok st, { c with cachedStatus := some st, lastStatusFetch := now }, true, false⟩) ∧
    (∀ d, (c.cachedData = none ∨ cfg.fetchInterval ≤ now - c.lastFetchTime) →
      fetchDataCached cfg c now (.ok d) =
        ⟨.ok d, { c with cachedData := some d, lastFetchTime := now }, true, false⟩) := by
  constructor
  · intro st h
    rcases h with h | h
    · simp [fetchStatusCached, h, fetchStatusFetchPath]
    · cases hc : c.cachedStatus with
      | none => simp [fetchStatusCached, hc, fetchStatusFetchPath]
      | some s => simp [fetchStatusCached, hc, not_lt.mpr h, fetchStatusFetchPath]
  · intro d h
    rcases h with h | h
    · simp [fetchDataCached, h, fetchDataFetchPath]
    · cases hc : c.cachedData with
      | none => simp [fetchDataCached, hc, fetchDataFetchPath]
      | some s => simp [fetchDataCached, hc, not_lt.mpr h, fetchDataFetchPath]

/-- Evaluation of `refresh_updates_cache` on concrete inputs: empty initial
collector, scrape at time 5 with successful fetch oracles. -/
theorem refresh_updates_cache_witness :
    fetchStatusCached sampleConfig initialCollector 5 (.ok sampleStatus) =
      ⟨.ok sampleStatus,
        { initialCollector with cachedStatus := some sampleStatus, lastStatusFetch := 5 },
        true, false⟩ ∧
    fetchDataCached sampleConfig initialCollector 5 (.ok sampleData) =
      ⟨.ok sampleData,
        { initialCollector with cachedData := some sampleData, lastFetchTime := 5 },
        true, false⟩ :=
  ⟨(refresh_updates_cache sampleConfig initialCollector 5).1 sampleStatus (Or.inl rfl),
   (refresh_updates_cache sampleConfig initialCollector 5).2 sampleData (Or.inl rfl)⟩

/-- Evaluation of `no_cache_failure` on concrete inputs: empty initial
collector, scrape at time 5, rate-limited fetch oracles for both sources. -/
theorem no_cache_failure_witness :
    (fetchStatusCached sampleConfig initialCollector 5 (.error .rateLimited)).result =
      .error .rateLimited ∧
    (Collect sampleConfig initialCollector 5 (.error .rateLimited)
      (.error .rateLimited)).metrics.filter isStatusMetric = [] ∧
    (fetchDataCached sampleConfig initialCollector 5 (.error .rateLimited)).result =
      .error .rateLimited ∧
    (Collect sampleConfig initialCollector 5 (.error .rateLimited)
      (.error .rateLimited)).metrics.filter isServerinfoMetric = [] ∧
    metricValues (Collect sampleConfig initialCollector 5 (.error .rateLimited)
      (.error .rateLimited)).metrics "nextcloud_scrape_success" = [0] := by
  have h1 := (no_cache_failure sampleConfig initialCollector 5).1 .rateLimited
    (.error .rateLimited) rfl
  have h2 := (no_cache_failure sampleConfig initialCollector 5).2 .rateLimited
    (.error .rateLimited) rfl
  exact ⟨h1.1, h1.2, h2.1, h2.2.1, h2.2.2⟩

/-- Evaluation of `scrape_health_signal` on concrete inputs: the
scrape-success value is unchanged when the status oracle flips from failure
to success while the data oracle stays failing. -/
theorem scrape_health_signal_witness :
    metricValues (Collect sampleConfig sampleCollector 5 (.error .rateLimited)
      (.error .rateLimited)).metrics "nextcloud_scrape_success" =
    metricValues (Collect sampleConfig sampleCollector 5 (.ok sampleStatus)
      (.error .rateLimited)).metrics "nextcloud_scrape_success" :=
  (scrape_health_signal sampleConfig sampleCollector 5 (.ok sampleStatus)
    (.error .rateLimited)).2.2 (.error .rateLimited) sampleCollector rfl rfl

/-- Evaluation of `source_independence` on concrete inputs: the info
source's cached-fetch outcome is the same from two collector states that
agree on the data-source fields but differ on the status-source fields. -/
theorem source_independence_witness :
    (fetchDataCached sampleConfig sampleCollector2 5 (.error .rateLimited)).result =
      (fetchDataCached sampleConfig sampleCollector 5 (.error .rateLimited)).result ∧
    (fetchDataCached sampleConfig sampleCollector2 5 (.error .rateLimited)).attempted =
      (fetchDataCached sampleConfig sampleCollector 5 (.error .rateLimited)).attempted :=
  (source_independence sampleConfig sampleCollector 5).2.2.1 sampleCollector2
    (.error .rateLimited) rfl rfl

/-- Evaluation of `memory_unit_conversion` on a concrete payload whose
database-size string parses and whose CPU-load list has three entries. -/
theorem memory_unit_conversion_witness :
    parseInt64 sampleData.ocs.data.server.database.size = some 52428800 ∧
    metricValues (collectAllMetrics sampleData) "nextcloud_database_size_bytes" =
      [((52428800 : Int) : Rat)] ∧
    3 ≤ sampleData.ocs.data.nextcloud.system.cpuLoad.length ∧
    metricValues (collectAllMetrics sampleData) "nextcloud_system_cpuload" =
      [sampleData.ocs.data.nextcloud.system.cpuLoad.getD 0 0,
       sampleData.ocs.data.nextcloud.system.cpuLoad.getD 1 0,
       sampleData.ocs.data.nextcloud.system.cpuLoad.getD 2 0] :=
  ⟨by decide,
   (memory_unit_conversion sampleData).2.2.2.2.2.1 52428800 (by decide),
   by decide,
   (memory_unit_conversion sampleData).2.2.2.2.2.2 (by decide)⟩

/-- A thread holding neither lock mode has no observation tied to the
current shared values, so its stage invariant is independent of them. -/
lemma ThreadInv_mem_irrel {α : Type} {G : Option α × Int → Prop} {slot slot' : Option α}
    {stamp stamp' : Int} {t : ThreadState α} (h : ThreadInv G slot stamp t)
    (hR : t.holdsR = false) (hW : t.holdsW = false) :
    ThreadInv G slot' stamp' t := by
  unfold ThreadInv at h ⊢
  rcases h with h | h | h | h | h | h | h | h | h
  · exact Or.inl h
  · rw [h.2.1] at hR
    exact absurd hR (by simp)
  · rw [h.2.1] at hR
    exact absurd hR (by simp)
  · rw [h.2.1] at hR
    exact absurd hR (by simp)
  · exact Or.inr (Or.inr (Or.inr (Or.inr (Or.inl h))))
  · rw [h.2.1] at hR
    exact absurd hR (by simp)
  · rw [h.2.1] at hR
    exact absurd hR (by simp)
  · exact Or.inr (Or.inr (Or.inr (Or.inr (Or.inr (Or.inr (Or.inr (Or.inl h)))))))
  · obtain ⟨v, ts, hG, h⟩ := h
    rcases h with h | h | h | h
    · exact Or.inr (Or.inr (Or.inr (Or.inr (Or.inr (Or.inr (Or.inr (Or.inr
        ⟨v, ts, hG, Or.inl h⟩)))))))
    · rw [h.2.1] at hW
      exact absurd hW (by simp)
    · rw [h.2.1] at hW
      exact absurd hW (by simp)
    · rw [h.2.1] at hW
      exact absurd hW (by simp)

/-- The initial system satisfies the invariant with its own complete-pair
predicate. -/
lemma init_inv {ι α : Type} [DecidableEq ι] (s : SysState ι α) (h : InitOk s) :
    SysInv (PairGood s) s := by
  obtain h := h
  refine ⟨?_, ?_, ?_, ?_⟩
  · intro i
    obtain ⟨h1, h2, h3, h4, h5⟩ := h i
    rcases h5 with h5 | h5 | ⟨v, t, h5⟩
    · exact Or.inl ⟨h5, h3, h4, h1, h2⟩
    · exact Or.inr (Or.inr (Or.inr (Or.inr (Or.inl ⟨h5, h3, h4, h1, h2⟩))))
    · exact Or.inr (Or.inr (Or.inr (Or.inr (Or.inr (Or.inr (Or.inr (Or.inr
        ⟨v, t, Or.inr ⟨i, v, t, h5, rfl⟩, Or.inl ⟨h5, h3, h4, h1, h2⟩⟩)))))))
  · intro i j _
    exact (h j).2.2.2.1
  · intro i j hi
    rw [(h i).2.2.2.1] at hi
    exact absurd hi (by simp)
  · intro _
    exact Or.inl rfl

/-- Rebuilding the system invariant after a step that changes neither the
shared memory nor any thread's write-lock flag. -/
lemma sysinv_update_nonW {ι α : Type} [DecidableEq ι] {G : Option α × Int → Prop}
    {s : SysState ι α} {i : ι} {T2 : ThreadState α}
    (hth : ∀ j, ThreadInv G s.slot s.stamp (s.threads j))
    (hRW : ∀ a b, (s.threads a).holdsR = true → (s.threads b).holdsW = false)
    (hWW : ∀ a b, (s.threads a).holdsW = true → (s.threads b).holdsW = true → a = b)
    (hGM : (∀ j, (s.threads j).holdsW = false) → G (s.slot, s.stamp))
    (hTi : ThreadInv G s.slot s.stamp T2)
    (hW : T2.holdsW = (s.threads i).holdsW)
    (hRcond : T2.holdsR = true → ∀ j, (s.threads j).holdsW = false) :
    SysInv G { s with threads := Function.update s.threads i T2 } := by
  have holdsW_eq : ∀ j, (Function.update s.threads i T2 j).holdsW = (s.threads j).holdsW := by
    intro j
    by_cases hj : j = i
    · subst hj
      rw [Function.update_same, hW]
    · rw [Function.update_noteq hj]
  refine ⟨?_, ?_, ?_, ?_⟩
  · intro j
    by_cases hj : j = i
    · subst hj
      show ThreadInv G s.slot s.stamp (Function.update s.threads j T2 j)
      rw [Function.update_same]
      exact hTi
    · show ThreadInv G s.slot s.stamp (Function.update s.threads i T2 j)
      rw [Function.update_noteq hj]
      exact hth j
  · intro a b ha
    have ha2 : (Function.update s.threads i T2 a).holdsR = true := ha
    rw [holdsW_eq]
    by_cases hj : a = i
    · subst hj
      rw [Function.update_same] at ha2
      exact hRcond ha2 b
    · rw [Function.update_noteq hj] at ha2
      exact hRW a b ha2
  · intro a b ha hb
    have ha2 : (Function.update s.threads i T2 a).holdsW = true := ha
    have hb2 : (Function.update s.threads i T2 b).holdsW = true := hb
    rw [holdsW_eq] at ha2 hb2
    exact hWW a b ha2 hb2
  · intro hnw
    refine hGM fun j => ?_
    have h2 : (Function.update s.threads i T2 j).holdsW = false := hnw j
    rw [holdsW_eq] at h2
    exact h2

/-- Rebuilding the system invariant after a write performed by the thread
holding the write lock. -/
lemma sysinv_update_writer {ι α : Type} [DecidableEq ι] {G : Option α × Int → Prop}
    {s : SysState ι α} {i : ι} {T2 : ThreadState α} {slot2 : Option α} {stamp2 : Int}
    (hth : ∀ j, ThreadInv G s.slot s.stamp (s.threads j))
    (hRW : ∀ a b, (s.threads a).holdsR = true → (s.threads b).holdsW = false)
    (hWW : ∀ a b, (s.threads a).holdsW = true → (s.threads b).holdsW = true → a = b)
    (hWi : (s.threads i).holdsW = true)
    (hTi : ThreadInv G slot2 stamp2 T2)
    (hW : T2.holdsW = true) (hR : T2.holdsR = false) :
    SysInv G { threads := Function.update s.threads i T2, slot := slot2, stamp := stamp2 } := by
  refine ⟨?_, ?_, ?_, ?_⟩
  · intro j
    by_cases hj : j = i
    · subst hj
      show ThreadInv G slot2 stamp2 (Function.update s.threads j T2 j)
      rw [Function.update_same]
      exact hTi
    · show ThreadInv G slot2 stamp2 (Function.update s.threads i T2 j)
      rw [Function.update_noteq hj]
      cases hRj : (s.threads j).holdsR with
      | true =>
        rw [hRW j i hRj] at hWi
        exact absurd hWi (by simp)
      | false =>
        cases hWj : (s.threads j).holdsW with
        | true => exact absurd (hWW j i hWj hWi) hj
        | false => exact ThreadInv_mem_irrel (hth j) hRj hWj
  · intro a b ha
    have ha2 : (Function.update s.threads i T2 a).holdsR = true := ha
    by_cases hj : a = i
    · subst hj
      rw [Function.update_same] at ha2
      rw [ha2] at hR
      exact absurd hR (by simp)
    · rw [Function.update_noteq hj] at ha2
      rw [hRW a i ha2] at hWi
      exact absurd hWi (by simp)
  · intro a b ha hb
    have ha1 : (Function.update s.threads i T2 a).holdsW = true := ha
    have hb1 : (Function.update s.threads i T2 b).holdsW = true := hb
    have ha2 : (s.threads a).holdsW = true := by
      by_cases hj : a = i
      · subst hj
        exact hWi
      · rw [Function.update_noteq hj] at ha1
        exact ha1
    have hb2 : (s.threads b).holdsW = true := by
      by_cases hj : b = i
      · subst hj
        exact hWi
      · rw [Function.update_noteq hj] at hb1
        exact hb1
    exact hWW a b ha2 hb2
  · intro hnw
    have h2 : (Function.update s.threads i T2 i).holdsW = false := hnw i
    rw [Function.update_same, hW] at h2
    exact absurd h2 (by simp)

/-- Each micro-step preserves the system invariant. -/
lemma step_inv {ι α : Type} [DecidableEq ι] {G : Option α × Int → Prop}
    {s s2 : SysState ι α} (hinv : SysInv G s) (hstep : Step s s2) : SysInv G s2 := by
  obtain ⟨hth, hRW, hWW, hGM⟩ := hinv
  cases hstep with
  | rlock i rest hp hw =>
    have hTi := hth i
    unfold ThreadInv at hTi
    rcases hTi with ⟨h1, h2, h3, h4, h5⟩ | ⟨h1, h2, h3, h4, h5⟩ | ⟨h1, h2, h3, h4, h5⟩ |
      ⟨h1, h2, h3, h4, h5⟩ | ⟨h1, h2, h3, h4, h5⟩ | ⟨h1, h2, h3, h4, h5⟩ |
      ⟨h1, h2, h3, h4, h5⟩ | ⟨h1, h2, h3, h45⟩ | ⟨v0, ts, hG, hst⟩ <;>
      [skip; (rw [hp] at h1; simp at h1); (rw [hp] at h1; simp at h1);
       (rw [hp] at h1; simp at h1); skip; (rw [hp] at h1; simp at h1);
       (rw [hp] at h1; simp at h1); (rw [hp] at h1; simp at h1); skip]
    · rw [hp] at h1
      simp only [readerProg, List.cons.injEq] at h1
      refine sysinv_update_nonW hth hRW hWW hGM ?_ rfl (fun _ => hw)
      exact Or.inr (Or.inl ⟨h1.2, rfl, h3, h4, h5⟩)
    · rw [hp] at h1
      simp only [readerSlotProg, List.cons.injEq] at h1
      refine sysinv_update_nonW hth hRW hWW hGM ?_ rfl (fun _ => hw)
      exact Or.inr (Or.inr (Or.inr (Or.inr (Or.inr (Or.inl ⟨h1.2, rfl, h3, h4, h5⟩)))))
    · rcases hst with ⟨h1, h2, h3, h4, h5⟩ | ⟨h1, h2, h3, h4, h5⟩ |
        ⟨h1, h2, h3, h6, h4, h5⟩ | ⟨h1, h2, h3, h6, h7, h4, h5⟩ <;>
        rw [hp] at h1 <;> simp [writerProg] at h1
  | runlock i rest hp hr =>
    have hTi := hth i
    unfold ThreadInv at hTi
    rcases hTi with ⟨h1, h2, h3, h4, h5⟩ | ⟨h1, h2, h3, h4, h5⟩ | ⟨h1, h2, h3, h4, h5⟩ |
      ⟨h1, h2, h3, h4, h5⟩ | ⟨h1, h2, h3, h4, h5⟩ | ⟨h1, h2, h3, h4, h5⟩ |
      ⟨h1, h2, h3, h4, h5⟩ | ⟨h1, h2, h3, h45⟩ | ⟨v0, ts, hG, hst⟩ <;>
      [(rw [hp] at h1; simp [readerProg] at h1); (rw [hp] at h1; simp at h1);
       (rw [hp] at h1; simp at h1); skip; (rw [hp] at h1; simp [readerSlotProg] at h1);
       (rw [hp] at h1; simp at h1); skip; (rw [hp] at h1; simp at h1); skip]
    · rw [hp] at h1
      simp only [List.cons.injEq] at h1
      refine sysinv_update_nonW hth hRW hWW hGM ?_ rfl (fun hc => absurd hc (by simp))
      refine Or.inr (Or.inr (Or.inr (Or.inr (Or.inr (Or.inr (Or.inr (Or.inl
        ⟨h1.2, rfl, h3, Or.inr (Or.inr ⟨s.slot, s.stamp, h4, h5, ?_⟩)⟩)))))))
      exact hGM fun j => hRW i j h2
    · rw [hp] at h1
      simp only [List.cons.injEq] at h1
      refine sysinv_update_nonW hth hRW hWW hGM ?_ rfl (fun hc => absurd hc (by simp))
      exact Or.inr (Or.inr (Or.inr (Or.inr (Or.inr (Or.inr (Or.inr (Or.inl
        ⟨h1.2, rfl, h3, Or.inr (Or.inl ⟨s.slot, h4, h5⟩)⟩)))))))
    · rcases hst with ⟨h1, h2, h3, h4, h5⟩ | ⟨h1, h2, h3, h4, h5⟩ |
        ⟨h1, h2, h3, h6, h4, h5⟩ | ⟨h1, h2, h3, h6, h7, h4, h5⟩ <;>
        rw [hp] at h1 <;> simp [writerProg] at h1
  | readSlot i rest hp =>
    have hTi := hth i
    unfold ThreadInv at hTi
    rcases hTi with ⟨h1, h2, h3, h4, h5⟩ | ⟨h1, h2, h3, h4, h5⟩ | ⟨h1, h2, h3, h4, h5⟩ |
      ⟨h1, h2, h3, h4, h5⟩ | ⟨h1, h2, h3, h4, h5⟩ | ⟨h1, h2, h3, h4, h5⟩ |
      ⟨h1, h2, h3, h4, h5⟩ | ⟨h1, h2, h3, h45⟩ | ⟨v0, ts, hG, hst⟩ <;>
      [(rw [hp] at h1; simp [readerProg] at h1); skip; (rw [hp] at h1; simp at h1);
       (rw [hp] at h1; simp at h1); (rw [hp] at h1; simp [readerSlotProg] at h1); skip;
       (rw [hp] at h1; simp at h1); (rw [hp] at h1; simp at h1); skip]
    · rw [hp] at h1
      simp only [List.cons.injEq] at h1
      refine sysinv_update_nonW hth hRW hWW hGM ?_ rfl (fun _ j => hRW i j h2)
      exact Or.inr (Or.inr (Or.inl ⟨h1.2, h2, h3, rfl, h5⟩))
    · rw [hp] at h1
      simp only [List.cons.injEq] at h1
      refine sysinv_update_nonW hth hRW hWW hGM ?_ rfl (fun _ j => hRW i j h2)
      exact Or.inr (Or.inr (Or.inr (Or.inr (Or.inr (Or.inr (Or.inl ⟨h1.2, h2, h3, rfl, h5⟩))))))
    · rcases hst with ⟨h1, h2, h3, h4, h5⟩ | ⟨h1, h2, h3, h4, h5⟩ |
        ⟨h1, h2, h3, h6, h4, h5⟩ | ⟨h1, h2, h3, h6, h7, h4, h5⟩ <;>
        rw [hp] at h1 <;> simp [writerProg] at h1
  | readStamp i rest hp =>
    have hTi := hth i
    unfold ThreadInv at hTi
    rcases hTi with ⟨h1, h2, h3, h4, h5⟩ | ⟨h1, h2, h3, h4, h5⟩ | ⟨h1, h2, h3, h4, h5⟩ |
      ⟨h1, h2, h3, h4, h5⟩ | ⟨h1, h2, h3, h4, h5⟩ | ⟨h1, h2, h3, h4, h5⟩ |
      ⟨h1, h2, h3, h4, h5⟩ | ⟨h1, h2, h3, h45⟩ | ⟨v0, ts, hG, hst⟩ <;>
      [(rw [hp] at h1; simp [readerProg] at h1); (rw [hp] at h1; simp at h1); skip;
       (rw [hp] at h1; simp at h1); (rw [hp] at h1; simp [readerSlotProg] at h1);
       (rw [hp] at h1; simp at h1); (rw [hp] at h1; simp at h1);
       (rw [hp] at h1; simp at h1); skip]
    · rw [hp] at h1
      simp only [List.cons.injEq] at h1
      refine sysinv_update_nonW hth hRW hWW hGM ?_ rfl (fun _ j => hRW i j h2)
      exact Or.inr (Or.inr (Or.inr (Or.inl ⟨h1.2, h2, h3, h4, rfl⟩)))
    · rcases hst with ⟨h1, h2, h3, h4, h5⟩ | ⟨h1, h2, h3, h4, h5⟩ |
        ⟨h1, h2, h3, h6, h4, h5⟩ | ⟨h1, h2, h3, h6, h7, h4, h5⟩ <;>
        rw [hp] at h1 <;> simp [writerProg] at h1
  | wlock i rest hp hw hr =>
    have hTi := hth i
    unfold ThreadInv at hTi
    rcases hTi with ⟨h1, h2, h3, h4, h5⟩ | ⟨h1, h2, h3, h4, h5⟩ | ⟨h1, h2, h3, h4, h5⟩ |
      ⟨h1, h2, h3, h4, h5⟩ | ⟨h1, h2, h3, h4, h5⟩ | ⟨h1, h2, h3, h4, h5⟩ |
      ⟨h1, h2, h3, h4, h5⟩ | ⟨h1, h2, h3, h45⟩ | ⟨v0, ts, hG, hst⟩ <;>
      [(rw [hp] at h1; simp [readerProg] at h1); (rw [hp] at h1; simp at h1);
       (rw [hp] at h1; simp at h1); (rw [hp] at h1; simp at h1);
       (rw [hp] at h1; simp [readerSlotProg] at h1); (rw [hp] at h1; simp at h1);
       (rw [hp] at h1; simp at h1); (rw [hp] at h1; simp at h1); skip]
    rcases hst with ⟨h1, h2, h3, h4, h5⟩ | ⟨h1, h2, h3, h4, h5⟩ |
      ⟨h1, h2, h3, h6, h4, h5⟩ | ⟨h1, h2, h3, h6, h7, h4, h5⟩ <;>
      [skip; (rw [hp] at h1; simp [writerProg] at h1);
       (rw [hp] at h1; simp [writerProg] at h1); (rw [hp] at h1; simp [writerProg] at h1)]
    rw [hp] at h1
    simp only [writerProg, List.cons.injEq] at h1
    refine ⟨?_, ?_, ?_, ?_⟩
    · intro j
      by_cases hj : j = i
      · subst hj
        show ThreadInv G s.slot s.stamp (Function.update s.threads j
          { s.threads j with prog := rest, holdsW := true } j)
        rw [Function.update_same]
        exact Or.inr (Or.inr (Or.inr (Or.inr (Or.inr (Or.inr (Or.inr (Or.inr
          ⟨v0, ts, hG, Or.inr (Or.inl ⟨h1.2, rfl, h2, h4, h5⟩)⟩)))))))
      · show ThreadInv G s.slot s.stamp (Function.update s.threads i
          { s.threads i with prog := rest, holdsW := true } j)
        rw [Function.update_noteq hj]
        exact hth j
    · intro a b ha
      have ha2 : (Function.update s.threads i
        { s.threads i with prog := rest, holdsW := true } a).holdsR = true := ha
      have ha3 : (s.threads a).holdsR = true := by
        by_cases hj : a = i
        · subst hj
          rw [Function.update_same] at ha2
          exact ha2
        · rw [Function.update_noteq hj] at ha2
          exact ha2
      rw [hr a] at ha3
      exact absurd ha3 (by simp)
    · intro a b ha hb
      have ha2 : (Function.update s.threads i
        { s.threads i with prog := rest, holdsW := true } a).holdsW = true := ha
      have hb2 : (Function.update s.threads i
        { s.threads i with prog := rest, holdsW := true } b).holdsW = true := hb
      by_cases hja : a = i
      · by_cases hjb : b = i
        · rw [hja, hjb]
        · rw [Function.update_noteq hjb] at hb2
          rw [hw b] at hb2
          exact absurd hb2 (by simp)
      · rw [Function.update_noteq hja] at ha2
        rw [hw a] at ha2
        exact absurd ha2 (by simp)
    · intro hnw
      have h9 : (Function.update s.threads i
        { s.threads i with prog := rest, holdsW := true } i).holdsW = false := hnw i
      rw [Function.update_same] at h9
      exact absurd h9 (by simp)
  | wunlock i rest hp hw =>
    have hTi := hth i
    unfold ThreadInv at hTi
    rcases hTi with ⟨h1, h2, h3, h4, h5⟩ | ⟨h1, h2, h3, h4, h5⟩ | ⟨h1, h2, h3, h4, h5⟩ |
      ⟨h1, h2, h3, h4, h5⟩ | ⟨h1, h2, h3, h4, h5⟩ | ⟨h1, h2, h3, h4, h5⟩ |
      ⟨h1, h2, h3, h4, h5⟩ | ⟨h1, h2, h3, h45⟩ | ⟨v0, ts, hG, hst⟩ <;>
      [(rw [hp] at h1; simp [readerProg] at h1); (rw [hp] at h1; simp at h1);
       (rw [hp] at h1; simp at h1); (rw [hp] at h1; simp at h1);
       (rw [hp] at h1; simp [readerSlotProg] at h1); (rw [hp] at h1; simp at h1);
       (rw [hp] at h1; simp at h1); (rw [hp] at h1; simp at h1); skip]
    rcases hst with ⟨h1, h2, h3, h4, h5⟩ | ⟨h1, h2, h3, h4, h5⟩ |
      ⟨h1, h2, h3, h6, h4, h5⟩ | ⟨h1, h2, h3, h6, h7, h4, h5⟩ <;>
      [(rw [hp] at h1; simp [writerProg] at h1); (rw [hp] at h1; simp at h1);
       (rw [hp] at h1; simp at h1); skip]
    rw [hp] at h1
    simp only [List.cons.injEq] at h1
    refine ⟨?_, ?_, ?_, ?_⟩
    · intro j
      by_cases hj : j = i
      · subst hj
        show ThreadInv G s.slot s.stamp (Function.update s.threads j
          { s.threads j with prog := rest, holdsW := false } j)
        rw [Function.update_same]
        exact Or.inr (Or.inr (Or.inr (Or.inr (Or.inr (Or.inr (Or.inr (Or.inl
          ⟨h1.2, h3, rfl, Or.inl ⟨h4, h5⟩⟩)))))))
      · show ThreadInv G s.slot s.stamp (Function.update s.threads i
          { s.threads i with prog := rest, holdsW := false } j)
        rw [Function.update_noteq hj]
        exact hth j
    · intro a b ha
      have ha2 : (Function.update s.threads i
        { s.threads i with prog := rest, holdsW := false } a).holdsR = true := ha
      show (Function.update s.threads i
        { s.threads i with prog := rest, holdsW := false } b).holdsW = false
      by_cases hjb : b = i
      · subst hjb
        rw [Function.update_same]
      · rw [Function.update_noteq hjb]
        have ha3 : (s.threads a).holdsR = true := by
          by_cases hja : a = i
          · subst hja
            rw [Function.update_same] at ha2
            exact ha2
          · rw [Function.update_noteq hja] at ha2
            exact ha2
        exact hRW a b ha3
    · intro a b ha hb
      have ha2 : (Function.update s.threads i
        { s.threads i with prog := rest, holdsW := false } a).holdsW = true := ha
      have hb2 : (Function.update s.threads i
        { s.threads i with prog := rest, holdsW := false } b).holdsW = true := hb
      by_cases hja : a = i
      · subst hja
        rw [Function.update_same] at ha2
        exact absurd ha2 (by simp)
      · by_cases hjb : b = i
        · subst hjb
          rw [Function.update_same] at hb2
          exact absurd hb2 (by simp)
        · rw [Function.update_noteq hja] at ha2
          rw [Function.update_noteq hjb] at hb2
          exact hWW a b ha2 hb2
    · intro _
      rw [← h6, ← h7] at hG
      exact hG
  | writeSlot i v rest hp =>
    have hTi := hth i
    unfold ThreadInv at hTi
    rcases hTi with ⟨h1, h2, h3, h4, h5⟩ | ⟨h1, h2, h3, h4, h5⟩ | ⟨h1, h2, h3, h4, h5⟩ |
      ⟨h1, h2, h3, h4, h5⟩ | ⟨h1, h2, h3, h4, h5⟩ | ⟨h1, h2, h3, h4, h5⟩ |
      ⟨h1, h2, h3, h4, h5⟩ | ⟨h1, h2, h3, h45⟩ | ⟨v0, ts, hG, hst⟩ <;>
      [(rw [hp] at h1; simp [readerProg] at h1); (rw [hp] at h1; simp at h1);
       (rw [hp] at h1; simp at h1); (rw [hp] at h1; simp at h1);
       (rw [hp] at h1; simp [readerSlotProg] at h1); (rw [hp] at h1; simp at h1);
       (rw [hp] at h1; simp at h1); (rw [hp] at h1; simp at h1); skip]
    rcases hst with ⟨h1, h2, h3, h4, h5⟩ | ⟨h1, h2, h3, h4, h5⟩ |
      ⟨h1, h2, h3, h6, h4, h5⟩ | ⟨h1, h2, h3, h6, h7, h4, h5⟩ <;>
      [(rw [hp] at h1; simp [writerProg] at h1); skip;
       (rw [hp] at h1; simp at h1); (rw [hp] at h1; simp at h1)]
    rw [hp] at h1
    simp only [List.cons.injEq, MicroOp.writeSlot.injEq] at h1
    obtain ⟨hv, hrest⟩ := h1
    subst hv
    refine sysinv_update_writer hth hRW hWW h2 ?_ h2 h3
    exact Or.inr (Or.inr (Or.inr (Or.inr (Or.inr (Or.inr (Or.inr (Or.inr
      ⟨v, ts, hG, Or.inr (Or.inr (Or.inl ⟨hrest, h2, h3, rfl, h4, h5⟩))⟩)))))))
  | writeStamp i t rest hp =>
    have hTi := hth i
    unfold ThreadInv at hTi
    rcases hTi with ⟨h1, h2, h3, h4, h5⟩ | ⟨h1, h2, h3, h4, h5⟩ | ⟨h1, h2, h3, h4, h5⟩ |
      ⟨h1, h2, h3, h4, h5⟩ | ⟨h1, h2, h3, h4, h5⟩ | ⟨h1, h2, h3, h4, h5⟩ |
      ⟨h1, h2, h3, h4, h5⟩ | ⟨h1, h2, h3, h45⟩ | ⟨v0, ts, hG, hst⟩ <;>
      [(rw [hp] at h1; simp [readerProg] at h1); (rw [hp] at h1; simp at h1);
       (rw [hp] at h1; simp at h1); (rw [hp] at h1; simp at h1);
       (rw [hp] at h1; simp [readerSlotProg] at h1); (rw [hp] at h1; simp at h1);
       (rw [hp] at h1; simp at h1); (rw [hp] at h1; simp at h1); skip]
    rcases hst with ⟨h1, h2, h3, h4, h5⟩ | ⟨h1, h2, h3, h4, h5⟩ |
      ⟨h1, h2, h3, h6, h4, h5⟩ | ⟨h1, h2, h3, h6, h7, h4, h5⟩ <;>
      [(rw [hp] at h1; simp [writerProg] at h1); (rw [hp] at h1; simp at h1);
       skip; (rw [hp] at h1; simp at h1)]
    rw [hp] at h1
    simp only [List.cons.injEq, MicroOp.writeStamp.injEq] at h1
    obtain ⟨ht, hrest⟩ := h1
    subst ht
    refine sysinv_update_writer hth hRW hWW h2 ?_ h2 h3
    exact Or.inr (Or.inr (Or.inr (Or.inr (Or.inr (Or.inr (Or.inr (Or.inr
      ⟨v0, t, hG, Or.inr (Or.inr (Or.inr ⟨hrest, h2, h3, h6, rfl, h4, h5⟩))⟩)))))))

/-- The invariant holds in every reachable state. -/
lemma reach_inv {ι α : Type} [DecidableEq ι] {G : Option α × Int → Prop}
    {s0 s : SysState ι α} (h0 : SysInv G s0) (h : Reach s0 s) : SysInv G s := by
  unfold Reach at h
  induction h with
  | refl => exact h0
  | tail _ hbc ih => exact step_inv ih hbc

/-- C8: in every interleaving of concurrent critical sections of the
cached-fetch operations on one source, a thread that has read both the
slot and the timestamp observed a complete pair: the initial
snapshot-and-timestamp pair or the pair stored by some writer section in
full, never the slot value of one write paired with the timestamp of
another. -/
theorem torn_read_freedom {ι α : Type} [DecidableEq ι] (s0 s : SysState ι α)
    (hinit : InitOk s0) (hreach : Reach s0 s) (i : ι) (v : Option α) (t : Int)
    (hv : (s.threads i).slotRead = some v) (ht : (s.threads i).stampRead = some t) :
    PairGood s0 (v, t) := by
  obtain ⟨hth, hRW, hWW, hGM⟩ := reach_inv (init_inv s0 hinit) hreach
  have hTi := hth i
  unfold ThreadInv at hTi
  rcases hTi with ⟨h1, h2, h3, h4, h5⟩ | ⟨h1, h2, h3, h4, h5⟩ | ⟨h1, h2, h3, h4, h5⟩ |
    ⟨h1, h2, h3, h4, h5⟩ | ⟨h1, h2, h3, h4, h5⟩ | ⟨h1, h2, h3, h4, h5⟩ |
    ⟨h1, h2, h3, h4, h5⟩ | ⟨h1, h2, h3, h45⟩ | ⟨v0, ts, hG, hst⟩
  · rw [h5] at ht
    exact absurd ht (by simp)
  · rw [h5] at ht
    exact absurd ht (by simp)
  · rw [h5] at ht
    exact absurd ht (by simp)
  · rw [h4] at hv
    rw [h5] at ht
    have hvv : v = s.slot := by
      simpa using hv.symm
    have htt : t = s.stamp := by
      simpa using ht.symm
    rw [hvv, htt]
    exact hGM fun j => hRW i j h2
  · rw [h5] at ht
    exact absurd ht (by simp)
  · rw [h5] at ht
    exact absurd ht (by simp)
  · rw [h5] at ht
    exact absurd ht (by simp)
  · rcases h45 with ⟨h4, h5⟩ | ⟨v1, h4, h5⟩ | ⟨v1, t1, h4, h5, hG⟩
    · rw [h5] at ht
      exact absurd ht (by simp)
    · rw [h5] at ht
      exact absurd ht (by simp)
    · rw [h4] at hv
      rw [h5] at ht
      have hvv : v = v1 := by
        simpa using hv.symm
      have htt : t = t1 := by
        simpa using ht.symm
      rw [hvv, htt]
      exact hG
  · rcases hst with ⟨h1, h2, h3, h4, h5⟩ | ⟨h1, h2, h3, h4, h5⟩ |
      ⟨h1, h2, h3, h6, h4, h5⟩ | ⟨h1, h2, h3, h6, h7, h4, h5⟩ <;>
      [skip; skip; skip; skip] <;>
      (rw [h5] at ht; exact absurd ht (by simp))

/-- Evaluation of `torn_read_freedom` on a concrete four-step execution in
which one reader runs its whole critical section. -/
theorem torn_read_freedom_witness : PairGood sampleSys0 (some sampleData, 0) := by
  have st1 : Step sampleSys0 sampleSys1 :=
    Step.rlock sampleSys0 0 [.readSlot, .readStamp, .runlock] rfl (fun _ => rfl)
  have st2 : Step sampleSys1 sampleSys2 :=
    Step.readSlot sampleSys1 0 [.readStamp, .runlock] rfl
  have st3 : Step sampleSys2 sampleSys3 :=
    Step.readStamp sampleSys2 0 [.runlock] rfl
  have st4 : Step sampleSys3 sampleSys4 :=
    Step.runlock sampleSys3 0 [] rfl rfl
  have hreach : Reach sampleSys0 sampleSys4 :=
    Relation.ReflTransGen.head st1 (Relation.ReflTransGen.head st2
      (Relation.ReflTransGen.head st3 (Relation.ReflTransGen.head st4
        Relation.ReflTransGen.refl)))
  exact torn_read_freedom sampleSys0 sampleSys4
    (fun i => ⟨rfl, rfl, rfl, rfl, Or.inl rfl⟩) hreach 0 (some sampleData) 0
    (by simp [sampleSys4, sampleSys3, sampleSys2, sampleSys1, sampleSys0, sampleThread0])
    (by simp [sampleSys4, sampleSys3, sampleSys2, sampleSys1, sampleSys0, sampleThread0])

end NextcloudExporter
